import Mathlib

/-!
Verification of the psemu PlayStation emulator core: a shallow embedding of
the CPU interpreter (src/libpsemu/cpu.cpp, cpu.h), the system bus
(src/libpsemu/include/bus.h) and the GPU GP0 command engine
(src/libpsemu/gpu.cpp, gpu.h) in Lean, together with theorems settling the
specification's claims about them.

Machine words (the C++ `Word` = uint32_t) are modelled as `Nat`, with
`% 2 ^ 32` applied exactly where C++ arithmetic wraps.  Bit masking by a
constant of the form `2 ^ k - 1` is written `% 2 ^ k`; masking the high bits,
`x & 0xFFFF0000`-style, is written `x / 2 ^ k * 2 ^ k` (exact for the
uint32-typed values the source manipulates); `|` of operands with disjoint
bit ranges is written `+`.  Each translated expression carries the original
C++ expression in a comment.  Byte arrays (`std::vector<Byte>`,
`std::array<Byte, N>`) are modelled as total functions `Nat → Nat` whose
values are reduced `% 256` on access, mirroring the `uint8_t` element type.
-/

/-- Truncation to a 32-bit word: C++ arithmetic on `Word` (uint32_t). -/
def w32 (n : Nat) : Nat := n % 4294967296

/-- Reinterpret a 32-bit word as a signed value:
`static_cast<SignedWord>(w)` for `w < 2 ^ 32`. -/
def toSigned (w : Nat) : Int :=
  if w < 2147483648 then (w : Int) else (w : Int) - 4294967296

/-- Reinterpret a signed value as a 32-bit word (two's complement),
`static_cast<Word>(i)`. -/
def toWord (i : Int) : Nat := (i % 4294967296).toNat

/-- Sign extension of a 16-bit value to a 32-bit word:
`Word(static_cast<SignedHalfword>(h))`. -/
def sext16 (h : Nat) : Nat :=
  if h % 65536 < 32768 then h % 65536 else h % 65536 + 4294901760

/-- A 16-bit value as a signed integer: `static_cast<SignedHalfword>(h)`. -/
def sint16 (h : Nat) : Int :=
  if h % 65536 < 32768 then (h % 65536 : Int) else (h % 65536 : Int) - 65536

/-- Sign extension of an 8-bit value to a 32-bit word:
`Word(static_cast<SignedByte>(b))`. -/
def sext8 (b : Nat) : Nat :=
  if b % 256 < 128 then b % 256 else b % 256 + 4294967040

/-- Unsigned 32-bit decrement with wraparound: `w--` on an `unsigned int`. -/
def dec32 (n : Nat) : Nat := (n + 4294967295) % 4294967296

/-- Unsigned 32-bit subtraction `a - b` for words `a b < 2 ^ 32`. -/
def sub32 (a b : Nat) : Nat := (a + 4294967296 - b % 4294967296) % 4294967296

/-! ## GPU (src/libpsemu/gpu.cpp, gpu.h) -/

/-- GP0 port state (`GPU::GP0State`). -/
inductive GP0State
  | AwaitingCommand
  | ReceivingParameters
  | ReceivingData
  | TransferringData
deriving DecidableEq

/-- Identifies the closure stored in `cmd.func`.  The source stores a
`std::function` captured per command; the embedding names each of the three
lambdas occurring in `GPU::gp0` and dispatches on the name.  `empty` is the
default-constructed `std::function` (never invoked on the paths reachable
from reset). -/
inductive CmdFunc
  | empty
  | rect68
  | copyA0
  | copyC0
deriving DecidableEq

/-- GPU state.  `vram` is the 1024x512 halfword array, indexed row-major by
`x + 1024 * y`; the index is an `Int` because `draw_rect` computes it from
signed vertex coordinates.  `vram_x_pos`, `vram_y_pos` and `vram_x_pos_max`
model the function-scope `static` cursor variables of the block-transfer
lambdas (set in the parameter phase before every use in the data phase). -/
structure GPUState where
  vram : Int → Nat
  gpuread : Nat
  gp0_state : GP0State
  params : List Nat
  func : CmdFunc
  remaining_words : Nat
  vram_x_pos : Nat
  vram_y_pos : Nat
  vram_x_pos_max : Nat

/-- `GPU::reset_gp0`: state back to `AwaitingCommand`, `cmd = { }`. -/
def GPU.reset_gp0 (g : GPUState) : GPUState :=
  { g with gp0_state := GP0State.AwaitingCommand,
           params := [],
           func := CmdFunc.empty,
           remaining_words := 0 }

/-- `GPU::reset`: `reset_gp0()` and `vram.fill(0x0000)`. -/
def GPU.reset (g : GPUState) : GPUState :=
  GPU.reset_gp0 { g with vram := fun _ => 0 }

/-- `GPU::draw_rect`: converts each 8-bit channel to 5 bits and packs the
pixel as `(g << 5) | (b << 10) | r` (disjoint 5-bit fields, so `|` is `+`).
The store is to a `Halfword` element, hence `% 65536`. -/
def GPU.draw_rect (g : GPUState) (color : Nat) (x y : Int) : GPUState :=
  let pixel_r := color % 256 / 8              -- (v0.color & 0x000000FF) / 8
  let pixel_g := color / 256 % 256 / 8        -- ((v0.color >> 8) & 0xFF) / 8
  let pixel_b := color / 65536 % 256 / 8      -- ((v0.color >> 16) & 0xFF) / 8
  { g with vram := fun i =>
      if i = x + 1024 * y                     -- v0.x + (VRAM_WIDTH * v0.y)
      then (pixel_g * 32 + pixel_b * 1024 + pixel_r) % 65536
      else g.vram i }

/-- `GPU::draw_rect_helper`: decodes the vertex from `cmd.params` and draws,
then `reset_gp0()`. -/
def GPU.draw_rect_helper (g : GPUState) : GPUState :=
  let color := g.params.getD 0 0                   -- cmd.params[0]
  let y := sint16 (g.params.getD 1 0 / 65536)      -- int16(cmd.params[1] >> 16)
  let x := sint16 (g.params.getD 1 0 % 65536)      -- int16(cmd.params[1] & 0xFFFF)
  GPU.reset_gp0 (GPU.draw_rect g color x y)

/-- One pixel store of the CPU-to-VRAM transfer:
`vram[vram_x_pos++ + (VRAM_WIDTH * vram_y_pos)] = val;` followed by the
row-wrap check `if (vram_x_pos >= vram_x_pos_max) { vram_y_pos++;
vram_x_pos = (cmd.params[0] & 0xFFFF) & 0x3FF; }`. -/
def GPU.put_pixel (g : GPUState) (val : Nat) : GPUState :=
  let g := { g with
    vram := fun i =>
      if i = (g.vram_x_pos : Int) + 1024 * (g.vram_y_pos : Int)
      then val % 65536 else g.vram i,
    vram_x_pos := g.vram_x_pos + 1 }
  if g.vram_x_pos_max ≤ g.vram_x_pos then
    { g with vram_y_pos := g.vram_y_pos + 1,
             vram_x_pos := g.params.getD 0 0 % 65536 % 1024 }
  else g

/-- One pixel read of the VRAM-to-CPU transfer, with the same cursor
advance; returns the 16-bit pixel and the advanced state. -/
def GPU.get_pixel (g : GPUState) : Nat × GPUState :=
  let px := g.vram ((g.vram_x_pos : Int) + 1024 * (g.vram_y_pos : Int)) % 65536
  let g := { g with vram_x_pos := g.vram_x_pos + 1 }
  if g.vram_x_pos_max ≤ g.vram_x_pos then
    (px, { g with vram_y_pos := g.vram_y_pos + 1,
                  vram_x_pos := g.params.getD 0 0 % 65536 % 1024 })
  else (px, g)

/-- The `GP0(0xA0)` lambda (CPU to VRAM block transfer): switches on the GP0
state; the parameter phase decodes width/height with wraparound and sets the
cursor, the data phase stores two pixels per word. -/
def GPU.funcA0 (g : GPUState) (data : Nat) : GPUState :=
  match g.gp0_state with
  | GP0State.ReceivingParameters =>
    let p0 := g.params.getD 0 0
    let p1 := g.params.getD 1 0
    -- (((cmd.params[1] & 0xFFFF) - 1) & 0x3FF) + 1, unsigned wraparound
    let width := (p1 % 65536 + 1023) % 1024 + 1
    -- (((cmd.params[1] >> 16) - 1) & 0x1FF) + 1, unsigned wraparound
    let height := (p1 / 65536 + 511) % 512 + 1
    { g with vram_x_pos := p0 % 65536 % 1024,       -- (p0 & 0xFFFF) & 0x3FF
             vram_y_pos := p0 / 65536 % 512,        -- (p0 >> 16) & 0x1FF
             vram_x_pos_max := p0 % 65536 % 1024 + width,
             remaining_words := width * height / 2,
             gp0_state := GP0State.ReceivingData }
  | GP0State.ReceivingData =>
    let g1 :=
      if g.remaining_words ≠ 0 then
        let g1 := GPU.put_pixel g (data % 65536)    -- data & 0x0000FFFF
        let g1 := GPU.put_pixel g1 (data / 65536)   -- data >> 16
        { g1 with remaining_words := dec32 g1.remaining_words }
      else g
    if g1.remaining_words = 0 then GPU.reset_gp0 g1 else g1
  | _ => g

/-- The `GP0(0xC0)` lambda (VRAM to CPU block transfer): the parameter phase
is identical to 0xA0 except the state goes to `TransferringData`; the data
phase reads two pixels into `gpuread = (pixel1 << 16) | pixel0`. -/
def GPU.funcC0 (g : GPUState) (data : Nat) : GPUState :=
  match g.gp0_state with
  | GP0State.ReceivingParameters =>
    let p0 := g.params.getD 0 0
    let p1 := g.params.getD 1 0
    let width := (p1 % 65536 + 1023) % 1024 + 1
    let height := (p1 / 65536 + 511) % 512 + 1
    { g with vram_x_pos := p0 % 65536 % 1024,
             vram_y_pos := p0 / 65536 % 512,
             vram_x_pos_max := p0 % 65536 % 1024 + width,
             remaining_words := width * height / 2,
             gp0_state := GP0State.TransferringData }
  | GP0State.TransferringData =>
    let g1 :=
      if g.remaining_words ≠ 0 then
        let r0 := GPU.get_pixel g
        let r1 := GPU.get_pixel r0.2
        { r1.2 with gpuread := r1.1 * 65536 + r0.1,  -- (pixel1 << 16) | pixel0
                    remaining_words := dec32 r1.2.remaining_words }
      else g
    if g1.remaining_words = 0 then GPU.reset_gp0 g1 else g1
  | _ => g

/-- Invoke `cmd.func(data)`: dispatch on which lambda is stored. -/
def GPU.call_func (g : GPUState) (data : Nat) : GPUState :=
  match g.func with
  | CmdFunc.empty => g
  | CmdFunc.rect68 => GPU.draw_rect_helper g
  | CmdFunc.copyA0 => GPU.funcA0 g data
  | CmdFunc.copyC0 => GPU.funcC0 g data

/-- `GPU::gp0(packet)`: the GP0 port state machine. -/
def GPU.gp0 (g : GPUState) (packet : Nat) : GPUState :=
  match g.gp0_state with
  | GP0State.AwaitingCommand =>
    -- switch (packet >> 24)
    if packet / 16777216 = 0x68 then
      { g with params := g.params ++ [packet % 16777216],  -- packet & 0x00FFFFFF
               remaining_words := 1,
               func := CmdFunc.rect68,
               gp0_state := GP0State.ReceivingParameters }
    else if packet / 16777216 = 0xA0 then
      { g with remaining_words := 2,
               func := CmdFunc.copyA0,
               gp0_state := GP0State.ReceivingParameters }
    else if packet / 16777216 = 0xC0 then
      { g with remaining_words := 2,
               func := CmdFunc.copyC0,
               gp0_state := GP0State.ReceivingParameters }
    else g
  | GP0State.ReceivingParameters =>
    let g := { g with params := g.params ++ [packet],
                      remaining_words := dec32 g.remaining_words }
    if g.remaining_words = 0 then GPU.call_func g 0 else g
  | GP0State.ReceivingData => GPU.call_func g packet
  | GP0State.TransferringData => GPU.call_func g packet

/-- `GPU::gp1` has an empty body. -/
def GPU.gp1 (g : GPUState) (_ : Nat) : GPUState := g

/-! ## System bus (src/libpsemu/include/bus.h) -/

/-- Where a read at a virtual address is dispatched by
`SystemBus::memory_access` (the read overload): which backing array is
accessed at which byte offset, or which I/O register / fallback applies. -/
inductive ReadTarget
  | ram (off : Nat)
  | scratchpad (off : Nat)
  | bios (off : Nat)
  | gpustat
  | unmapped
deriving DecidableEq

/-- The read overload's address decoding.  `paddr = vaddr & 0x1FFFFFFF`;
dispatch on `(paddr & 0xFFFF0000) >> 16`, then for the `0x1F80` page on
`(paddr & 0x0000F000) >> 12`, then on `paddr & 0x00000FFF`. -/
def read_target (vaddr : Nat) : ReadTarget :=
  let paddr := vaddr % 536870912          -- vaddr & 0x1FFFFFFF
  let hi := paddr / 65536                 -- (paddr & 0xFFFF0000) >> 16
  if hi ≤ 0x001F then ReadTarget.ram paddr
  else if hi = 0x1F80 then
    (if paddr / 4096 % 16 = 0 then       -- (paddr & 0x0000F000) >> 12
       ReadTarget.scratchpad (paddr % 4096)  -- paddr & 0x00000FFF
     else if paddr / 4096 % 16 = 1 then
       (if paddr % 4096 = 0x814 then ReadTarget.gpustat  -- GPU::Registers::GPUSTAT
        else ReadTarget.unmapped)
     else ReadTarget.unmapped)
  else if 0x1FC0 ≤ hi ∧ hi ≤ 0x1FC7 then
    ReadTarget.bios (paddr % 1048576)     -- paddr & 0x000FFFFF
  else ReadTarget.unmapped

/-- Where a write is dispatched by the write overload of
`SystemBus::memory_access`. -/
inductive WriteTarget
  | ram (off : Nat)
  | scratchpad (off : Nat)
  | gp0
  | gp1
  | dropped
deriving DecidableEq

/-- The write overload's address decoding.  Same region dispatch as the
read; the I/O page forwards `0x810` to GP0 and `0x814` to GP1; there is no
BIOS case (writes fall through to the logged-and-dropped default). -/
def write_target (vaddr : Nat) : WriteTarget :=
  let paddr := vaddr % 536870912          -- vaddr & 0x1FFFFFFF
  let hi := paddr / 65536                 -- (paddr & 0xFFFF0000) >> 16
  if hi ≤ 0x001F then WriteTarget.ram paddr
  else if hi = 0x1F80 then
    (if paddr / 4096 % 16 = 0 then
       WriteTarget.scratchpad (paddr % 4096)
     else if paddr / 4096 % 16 = 1 then
       (if paddr % 4096 = 0x810 then WriteTarget.gp0       -- GPU::Registers::GP0
        else if paddr % 4096 = 0x814 then WriteTarget.gp1  -- GPU::Registers::GP1
        else WriteTarget.dropped)
     else WriteTarget.dropped)
  else WriteTarget.dropped

/-- Bus state: RAM (2 MiB), scratchpad (1 KiB), BIOS ROM (512 KiB) as byte
functions, plus the owned GPU. -/
structure SystemBus where
  ram : Nat → Nat
  scratchpad : Nat → Nat
  bios : Nat → Nat
  gpu : GPUState

/-- Little-endian load of `width` bytes starting at `off`
(`std::memcpy(&result, &arr[off], sizeof(T))` on a little-endian host). -/
def bytes_le (m : Nat → Nat) (off width : Nat) : Nat :=
  match width with
  | 0 => 0
  | n + 1 => m off % 256 + 256 * bytes_le m (off + 1) n

/-- Little-endian store of the low `width` bytes of `data` at `off`
(`std::memcpy(&arr[off], &data, sizeof(T))`). -/
def store_le (m : Nat → Nat) (off width data : Nat) : Nat → Nat :=
  match width with
  | 0 => m
  | n + 1 => store_le (fun a => if a = off then data % 256 else m a)
                      (off + 1) n (data / 256)

/-- The read overload `SystemBus::memory_access<T>(vaddr)`; `width` is
`sizeof(T)`.  The GPUSTAT stub `return 0x1FF00000` is converted to `T`,
hence the truncation to `width` bytes.  Unknown addresses return the
zero-initialized `result`. -/
def memory_read (bus : SystemBus) (width vaddr : Nat) : Nat :=
  match read_target vaddr with
  | ReadTarget.ram off => bytes_le bus.ram off width
  | ReadTarget.scratchpad off => bytes_le bus.scratchpad off width
  | ReadTarget.bios off => bytes_le bus.bios off width
  | ReadTarget.gpustat => 0x1FF00000 % 2 ^ (8 * width)
  | ReadTarget.unmapped => 0

/-- The write overload `SystemBus::memory_access<T>(vaddr, data)`. -/
def memory_write (bus : SystemBus) (width vaddr data : Nat) : SystemBus :=
  match write_target vaddr with
  | WriteTarget.ram off => { bus with ram := store_le bus.ram off width data }
  | WriteTarget.scratchpad off =>
      { bus with scratchpad := store_le bus.scratchpad off width data }
  | WriteTarget.gp0 => { bus with gpu := GPU.gp0 bus.gpu data }
  | WriteTarget.gp1 => { bus with gpu := GPU.gp1 bus.gpu data }
  | WriteTarget.dropped => bus

/-- Size of the scratchpad array, `std::array<Byte, SCRATCHPAD_SIZE>`.
Modelled from the spec: the constant `SCRATCHPAD_SIZE` is not defined
anywhere under src/; the spec's data model gives 1,024 bytes, matching the
range comment on the array ([0x1F800000 - 0x1F8003FF]). -/
def SCRATCHPAD_SIZE : Nat := 1024

/-! ## CPU (src/libpsemu/cpu.cpp, include/cpu.h) -/

/-- COP0 registers with storage: BadA(8), SR(12), Cause(13), EPC(14), plus
the `unused` scratch cell returned by `operator[]` for unknown indices. -/
structure COP0 where
  BadA : Nat
  SR : Nat
  Cause : Nat
  EPC : Nat
  unused : Nat
deriving DecidableEq

/-- `cop0[index]` as an rvalue. -/
def COP0.read (c : COP0) (index : Nat) : Nat :=
  if index = 8 then c.BadA
  else if index = 12 then c.SR
  else if index = 13 then c.Cause
  else if index = 14 then c.EPC
  else c.unused

/-- `cop0[index] = v`. -/
def COP0.write (c : COP0) (index v : Nat) : COP0 :=
  if index = 8 then { c with BadA := v }
  else if index = 12 then { c with SR := v }
  else if index = 13 then { c with Cause := v }
  else if index = 14 then { c with EPC := v }
  else { c with unused := v }

/-- CPU state.  `gpr` is the 32-entry register file (only indices 0..31 are
ever used: every index is a 5-bit instruction field). -/
structure CPUState where
  gpr : Nat → Nat
  pc : Nat
  next_pc : Nat
  hi : Nat
  lo : Nat
  instruction : Nat
  cop0 : COP0

/-- The whole machine: the CPU and the bus it borrows. -/
structure Machine where
  cpu : CPUState
  bus : SystemBus

/-- `gpr[i] = v`. -/
def set_gpr (g : Nat → Nat) (i v : Nat) : Nat → Nat :=
  fun j => if j = i then v else g j

/-- Instruction field `op` (bits 31:26 of the packed union). -/
def instr_op (word : Nat) : Nat := word / 67108864 % 64

/-- Instruction field `rs` (bits 25:21). -/
def instr_rs (word : Nat) : Nat := word / 2097152 % 32

/-- Instruction field `rt` (bits 20:16). -/
def instr_rt (word : Nat) : Nat := word / 65536 % 32

/-- Instruction field `rd` (bits 15:11). -/
def instr_rd (word : Nat) : Nat := word / 2048 % 32

/-- Instruction field `shamt` (bits 10:6). -/
def instr_shamt (word : Nat) : Nat := word / 64 % 32

/-- Instruction field `funct` (bits 5:0). -/
def instr_funct (word : Nat) : Nat := word % 64

/-- `CPU::target()`: `instruction.word & 0x03FFFFFF`. -/
def instr_target (word : Nat) : Nat := word % 67108864

/-- `CPU::immediate()` / `CPU::offset()`: `instruction.word & 0x0000FFFF`. -/
def immediate (word : Nat) : Nat := word % 65536

/-- `CPU::vaddr()`: `static_cast<SignedHalfword>(offset()) + gpr[base()]`,
computed in `Word` arithmetic. -/
def eff_vaddr (c : CPUState) (word : Nat) : Nat :=
  w32 (sext16 (immediate word) + c.gpr (instr_rs word))

/-- `CPU::trap(exc, bad_vaddr)`.  Exception codes: AdEL=4, AdES=5, Sys=8,
Bp=9, Ovf=12.  `SR = (SR & 0xFFFFFFC0) | ((SR & 0xF) << 2)` and
`Cause = (Cause & ~0xFFFF00FF) | (exc << 2)` (over 32 bits `~0xFFFF00FF` is
`0x0000FF00`), both written in `/`-`%` form (disjoint bit ranges). -/
def trap (c : CPUState) (exc : Nat) (bad_vaddr : Nat) : CPUState :=
  let c := { c with cop0 := { c.cop0 with
    EPC := w32 (c.pc + 4294967292),                       -- pc - 4 (mod 2^32)
    SR := c.cop0.SR / 64 * 64 + c.cop0.SR % 16 * 4,
    Cause := c.cop0.Cause / 256 % 256 * 256 + exc * 4 } }
  let c := if exc = 4 then { c with cop0 := { c.cop0 with BadA := bad_vaddr } }
           else c
  { c with pc := 0x80000080, next_pc := 0x80000084 }      -- next_pc = pc + 4

/-- `CPU::branch_if(condition_met)`:
`next_pc = static_cast<SignedHalfword>(offset() << 2) + pc`.  The cast to
`SignedHalfword` keeps only the low 16 bits of `offset() << 2`, which the
`% 65536` makes explicit. -/
def branch_if (c : CPUState) (word : Nat) (condition_met : Bool) : CPUState :=
  if condition_met then
    { c with next_pc := w32 (sext16 (immediate word * 4 % 65536) + c.pc) }
  else c

/-- The BCOND branch condition:
`static_cast<int32_t>(gpr[rs] ^ (instruction.rt << 31)) < 0`
(`rt << 31` wraps in 32 bits: only bit 0 of `rt` survives, at bit 31). -/
def bcond_taken (c : CPUState) (word : Nat) : Bool :=
  decide (toSigned (c.gpr (instr_rs word) ^^^ w32 (instr_rt word <<< 31)) < 0)

/-- `SRBits::IsC` tested by the SW case as `cop0[SR] & SRBits::IsC`.
Modelled from the spec: the `SRBits` enum is not defined anywhere under
src/; the spec places IsC at bit 16, matching the `IsC` position in cpu.h's
SR bitfield.  The test `SR & 0x10000 != 0` is `SR / 65536 % 2 = 1`. -/
def sr_isc (sr : Nat) : Bool := sr / 65536 % 2 = 1

/-- Write a general-purpose register: `gpr[i] = v`. -/
def with_gpr (m : Machine) (i v : Nat) : Machine :=
  { m with cpu := { m.cpu with gpr := set_gpr m.cpu.gpr i v } }

/-- The opcode dispatch of `CPU::step` (the big `switch` on
`instruction.op`, including the nested SPECIAL / BCOND / COP0 switches and
all loads and stores), executed after `pc` has been advanced.  Unknown
opcodes hit `__debugbreak()` and change nothing. -/
def execute (m : Machine) (word : Nat) : Machine :=
  let c := m.cpu
  let op := instr_op word
  if op = 0x00 then      -- InstructionGroup::SPECIAL
    let f := instr_funct word
    let rsv := c.gpr (instr_rs word)
    let rtv := c.gpr (instr_rt word)
    if f = 0x00 then       -- SLL: rd = rt << shamt
      with_gpr m (instr_rd word) (w32 (rtv * 2 ^ instr_shamt word))
    else if f = 0x02 then  -- SRL: rd = rt >> shamt
      with_gpr m (instr_rd word) (rtv / 2 ^ instr_shamt word)
    else if f = 0x03 then  -- SRA: rd = (SignedWord)rt >> shamt
      with_gpr m (instr_rd word) (toWord (Int.fdiv (toSigned rtv) (2 ^ instr_shamt word)))
    else if f = 0x04 then  -- SLLV: rd = rt << (rs & 0x1F)
      with_gpr m (instr_rd word) (w32 (rtv * 2 ^ (rsv % 32)))
    else if f = 0x06 then  -- SRLV: rd = rt >> (rs & 0x1F)
      with_gpr m (instr_rd word) (rtv / 2 ^ (rsv % 32))
    else if f = 0x07 then  -- SRAV: rd = (SignedWord)rt >> (rs & 0x1F)
      with_gpr m (instr_rd word) (toWord (Int.fdiv (toSigned rtv) (2 ^ (rsv % 32))))
    else if f = 0x08 then  -- JR: next_pc = rs
      { m with cpu := { c with next_pc := rsv } }
    else if f = 0x09 then  -- JALR: rd = next_pc; next_pc = gpr[rs]
      let g := set_gpr c.gpr (instr_rd word) c.next_pc
      { m with cpu := { c with gpr := g, next_pc := g (instr_rs word) } }
    else if f = 0x0C then  -- SYSCALL
      { m with cpu := trap c 8 0 }
    else if f = 0x0D then  -- BREAK
      { m with cpu := trap c 9 0 }
    else if f = 0x10 then  -- MFHI
      with_gpr m (instr_rd word) c.hi
    else if f = 0x11 then  -- MTHI
      { m with cpu := { c with hi := rsv } }
    else if f = 0x12 then  -- MFLO
      with_gpr m (instr_rd word) c.lo
    else if f = 0x13 then  -- MTLO
      { m with cpu := { c with lo := rsv } }
    else if f = 0x18 then  -- MULT: 64-bit signed product into (hi, lo)
      let product := (toSigned rsv * toSigned rtv % 18446744073709551616).toNat
      { m with cpu := { c with lo := product % 4294967296, hi := product / 4294967296 } }
    else if f = 0x19 then  -- MULTU: 64-bit unsigned product into (hi, lo)
      let product := rsv * rtv
      { m with cpu := { c with lo := product % 4294967296, hi := product / 4294967296 } }
    else if f = 0x1A then  -- DIV
      let rt := toSigned rtv
      let rs := toSigned rsv
      if rt = 0 then
        { m with cpu := { c with lo := if rs < 0 then 0x00000001 else 0xFFFFFFFF, hi := toWord rs } }
      else if toWord rs = 0x80000000 ∧ toWord rt = 0xFFFFFFFF then
        { m with cpu := { c with lo := toWord rs, hi := 0x00000000 } }
      else
        { m with cpu := { c with lo := toWord (Int.tdiv rs rt), hi := toWord (Int.tmod rs rt) } }
    else if f = 0x1B then  -- DIVU
      if rtv = 0 then
        { m with cpu := { c with lo := 0xFFFFFFFF, hi := rsv } }
      else
        { m with cpu := { c with lo := rsv / rtv, hi := rsv % rtv } }
    else if f = 0x20 then  -- ADD, signed overflow trap
      let result := w32 (rsv + rtv)
      -- !((rs ^ rt) & 0x80000000) && ((result ^ rs) & 0x80000000)
      if rsv / 2147483648 % 2 = rtv / 2147483648 % 2 ∧
         result / 2147483648 % 2 ≠ rsv / 2147483648 % 2 then
        { m with cpu := trap c 12 0 }
      else
        with_gpr m (instr_rd word) result
    else if f = 0x21 then  -- ADDU
      with_gpr m (instr_rd word) (w32 (rsv + rtv))
    else if f = 0x22 then  -- SUB, signed overflow trap
      let result := sub32 rsv rtv
      -- ((rs ^ rt) & 0x80000000) && ((result ^ rs) & 0x80000000)
      if rsv / 2147483648 % 2 ≠ rtv / 2147483648 % 2 ∧
         result / 2147483648 % 2 ≠ rsv / 2147483648 % 2 then
        { m with cpu := trap c 12 0 }
      else
        with_gpr m (instr_rd word) result
    else if f = 0x23 then  -- SUBU
      with_gpr m (instr_rd word) (sub32 rsv rtv)
    else if f = 0x24 then  -- AND
      with_gpr m (instr_rd word) (rsv &&& rtv)
    else if f = 0x25 then  -- OR
      with_gpr m (instr_rd word) (rsv ||| rtv)
    else if f = 0x26 then  -- XOR
      with_gpr m (instr_rd word) (rsv ^^^ rtv)
    else if f = 0x27 then  -- NOR: ~(rs | rt) over 32 bits
      with_gpr m (instr_rd word) (4294967295 - w32 (rsv ||| rtv))
    else if f = 0x2A then  -- SLT
      with_gpr m (instr_rd word) (if toSigned rsv < toSigned rtv then 1 else 0)
    else if f = 0x2B then  -- SLTU
      with_gpr m (instr_rd word) (if rsv < rtv then 1 else 0)
    else m                 -- unknown funct: __debugbreak()
  else if op = 0x01 then   -- InstructionGroup::BCOND
    -- if (instruction.rt & 0x10) gpr[31] = next_pc  (rt < 32: bit 4 is 16 ≤ rt)
    let c1 := if 16 ≤ instr_rt word
              then { c with gpr := set_gpr c.gpr 31 c.next_pc } else c
    { m with cpu := branch_if c1 word (bcond_taken c1 word) }
  else if op = 0x02 then   -- J: next_pc = (target << 2) | (pc & 0xF0000000)
    { m with cpu := { c with next_pc := instr_target word * 4 + c.pc / 268435456 * 268435456 } }
  else if op = 0x03 then   -- JAL: gpr[31] = next_pc, then as J
    { m with cpu := { c with
        gpr := set_gpr c.gpr 31 c.next_pc,
        next_pc := instr_target word * 4 + c.pc / 268435456 * 268435456 } }
  else if op = 0x04 then   -- BEQ
    { m with cpu := branch_if c word (c.gpr (instr_rs word) = c.gpr (instr_rt word)) }
  else if op = 0x05 then   -- BNE
    { m with cpu := branch_if c word (c.gpr (instr_rs word) ≠ c.gpr (instr_rt word)) }
  else if op = 0x06 then   -- BLEZ
    { m with cpu := branch_if c word (toSigned (c.gpr (instr_rs word)) ≤ 0) }
  else if op = 0x07 then   -- BGTZ
    { m with cpu := branch_if c word (0 < toSigned (c.gpr (instr_rs word))) }
  else if op = 0x08 then   -- ADDI: signed overflow trap
    let imm := sext16 (immediate word)
    let rsv := c.gpr (instr_rs word)
    let result := w32 (imm + rsv)
    -- !((rs ^ imm) & 0x80000000) && ((result ^ rs) & 0x80000000)
    if rsv / 2147483648 % 2 = imm / 2147483648 % 2 ∧
       result / 2147483648 % 2 ≠ rsv / 2147483648 % 2 then
      { m with cpu := trap c 12 0 }
    else
      with_gpr m (instr_rt word) result
  else if op = 0x09 then   -- ADDIU
    with_gpr m (instr_rt word) (w32 (c.gpr (instr_rs word) + sext16 (immediate word)))
  else if op = 0x0A then   -- SLTI: (SignedWord)rs < (SignedHalfword)imm
    with_gpr m (instr_rt word)
      (if toSigned (c.gpr (instr_rs word)) < sint16 (immediate word) then 1 else 0)
  else if op = 0x0B then   -- SLTIU: rs < Word((SignedHalfword)imm)
    with_gpr m (instr_rt word)
      (if c.gpr (instr_rs word) < sext16 (immediate word) then 1 else 0)
  else if op = 0x0C then   -- ANDI
    with_gpr m (instr_rt word) (c.gpr (instr_rs word) &&& immediate word)
  else if op = 0x0D then   -- ORI
    with_gpr m (instr_rt word) (c.gpr (instr_rs word) ||| immediate word)
  else if op = 0x0E then   -- XORI
    with_gpr m (instr_rt word) (c.gpr (instr_rs word) ^^^ immediate word)
  else if op = 0x0F then   -- LUI: rt = imm << 16
    with_gpr m (instr_rt word) (immediate word * 65536)
  else if op = 0x10 then   -- InstructionGroup::COP0, dispatch on rs
    if instr_rs word = 0x00 then      -- MF: rt = cop0[rd]
      with_gpr m (instr_rt word) (COP0.read c.cop0 (instr_rd word))
    else if instr_rs word = 0x04 then -- MT: cop0[rd] = gpr[rt]
      { m with cpu := { c with
          cop0 := COP0.write c.cop0 (instr_rd word) (c.gpr (instr_rt word)) } }
    else if instr_funct word = 0x10 then -- RFE
      -- SR = (SR & 0xFFFFFFF0) | ((SR & 0x3C) >> 2)
      { m with cpu := { c with cop0 := { c.cop0 with
          SR := c.cop0.SR / 16 * 16 + c.cop0.SR % 64 / 4 } } }
    else m               -- unknown COP0 variant: __debugbreak()
  else if op = 0x20 then   -- LB
    with_gpr m (instr_rt word) (sext8 (memory_read m.bus 1 (eff_vaddr c word)))
  else if op = 0x21 then   -- LH (alignment 2, AdEL with bad_vaddr)
    let v := eff_vaddr c word
    if v % 2 ≠ 0 then { m with cpu := trap c 4 v }
    else with_gpr m (instr_rt word) (sext16 (memory_read m.bus 2 v))
  else if op = 0x22 then   -- LWL: merge with the word at vaddr & ~3
    let v := eff_vaddr c word
    let data := memory_read m.bus 4 (v / 4 * 4)      -- vaddr & 0xFFFFFFFC
    let old := c.gpr (instr_rt word)
    let merged :=
      if v % 4 = 0 then old % 16777216 + data % 256 * 16777216
        -- (old & 0x00FFFFFF) | (data << 24)
      else if v % 4 = 1 then old % 65536 + data % 65536 * 65536
        -- (old & 0x0000FFFF) | (data << 16)
      else if v % 4 = 2 then old % 256 + data % 16777216 * 256
        -- (old & 0x000000FF) | (data << 8)
      else data
        -- (old & 0x00000000) | (data << 0)
    with_gpr m (instr_rt word) merged
  else if op = 0x23 then   -- LW (alignment 4, AdEL with bad_vaddr)
    let v := eff_vaddr c word
    if v % 4 ≠ 0 then { m with cpu := trap c 4 v }
    else with_gpr m (instr_rt word) (memory_read m.bus 4 v)
  else if op = 0x24 then   -- LBU
    with_gpr m (instr_rt word) (memory_read m.bus 1 (eff_vaddr c word))
  else if op = 0x25 then   -- LHU (alignment 2, AdEL with bad_vaddr)
    let v := eff_vaddr c word
    if v % 2 ≠ 0 then { m with cpu := trap c 4 v }
    else with_gpr m (instr_rt word) (memory_read m.bus 2 v)
  else if op = 0x26 then   -- LWR: merge with the word at vaddr & ~3
    let v := eff_vaddr c word
    let data := memory_read m.bus 4 (v / 4 * 4)
    let old := c.gpr (instr_rt word)
    let merged :=
      if v % 4 = 0 then data
      else if v % 4 = 1 then old / 16777216 * 16777216 + data / 256
        -- (old & 0xFF000000) | (data >> 8)
      else if v % 4 = 2 then old / 65536 * 65536 + data / 65536
        -- (old & 0xFFFF0000) | (data >> 16)
      else old / 256 * 256 + data / 16777216
        -- (old & 0xFFFFFF00) | (data >> 24)
    with_gpr m (instr_rt word) merged
  else if op = 0x28 then   -- SB: gpr[rt] & 0x000000FF
    { m with bus := memory_write m.bus 1 (eff_vaddr c word) (c.gpr (instr_rt word) % 256) }
  else if op = 0x29 then   -- SH (alignment 2, AdES): gpr[rt] & 0x0000FFFF
    let v := eff_vaddr c word
    if v % 2 ≠ 0 then { m with cpu := trap c 5 v }
    else { m with bus := memory_write m.bus 2 v (c.gpr (instr_rt word) % 65536) }
  else if op = 0x2A then   -- SWL: read-merge-write the word at vaddr & ~3
    let v := eff_vaddr c word
    let data := memory_read m.bus 4 (v / 4 * 4)
    let rtv := c.gpr (instr_rt word)
    let merged :=
      if v % 4 = 0 then data / 256 * 256 + w32 rtv / 16777216
        -- (data & 0xFFFFFF00) | (rt >> 24)
      else if v % 4 = 1 then data / 65536 * 65536 + w32 rtv / 65536
        -- (data & 0xFFFF0000) | (rt >> 16)
      else if v % 4 = 2 then data / 16777216 * 16777216 + w32 rtv / 256
        -- (data & 0xFF000000) | (rt >> 8)
      else w32 rtv
        -- (data & 0x00000000) | (rt << 0)
    { m with bus := memory_write m.bus 4 (v / 4 * 4) merged }
  else if op = 0x2B then   -- SW, suppressed when SR.IsC is set
    if ¬ sr_isc c.cop0.SR then   -- !(cop0[SR] & SRBits::IsC)
      let v := eff_vaddr c word
      if v % 4 ≠ 0 then { m with cpu := trap c 5 0 }  -- AdES, default bad_vaddr
      else { m with bus := memory_write m.bus 4 v (c.gpr (instr_rt word)) }
    else m
  else if op = 0x2E then   -- SWR: read-merge-write the word at vaddr & ~3
    let v := eff_vaddr c word
    let data := memory_read m.bus 4 (v / 4 * 4)
    let rtv := c.gpr (instr_rt word)
    let merged :=
      if v % 4 = 0 then w32 rtv
        -- (data & 0x00000000) | (rt << 0)
      else if v % 4 = 1 then data % 256 + rtv % 16777216 * 256
        -- (data & 0x000000FF) | (rt << 8)
      else if v % 4 = 2 then data % 65536 + rtv % 65536 * 65536
        -- (data & 0x0000FFFF) | (rt << 16)
      else data % 16777216 + rtv % 256 * 16777216
        -- (data & 0x00FFFFFF) | (rt << 24)
    { m with bus := memory_write m.bus 4 (v / 4 * 4) merged }
  else m                   -- unknown opcode: __debugbreak()

/-- The two closing statements of `CPU::step()`: the refetch
`instruction.word = bus.memory_access<Word>(pc)` kept for debuggers, and
the zero-register write-back `gpr[0] = 0x00000000`. -/
def epilogue (m : Machine) : Machine :=
  { m with cpu := { m.cpu with
    instruction := memory_read m.bus 4 m.cpu.pc,
    gpr := set_gpr m.cpu.gpr 0 0 } }

/-- `CPU::step()`: alignment check (AdEL with the default `bad_vaddr`),
fetch, advance `pc`/`next_pc`, dispatch, then the epilogue. -/
def step (m : Machine) : Machine :=
  let m := if m.cpu.pc % 4 ≠ 0 then { m with cpu := trap m.cpu 4 0 } else m
  let word := memory_read m.bus 4 m.cpu.pc
  epilogue (execute { m with cpu := { m.cpu with
    instruction := word,
    pc := m.cpu.next_pc,
    next_pc := w32 (m.cpu.next_pc + 4) } } word)

/-- `CPU::reset()` followed by the host's RAM/scratchpad zeroing: registers
and COP0 cleared, `pc = RESET_VECTOR`, prefetch. -/
def CPU.reset (m : Machine) : Machine :=
  let c : CPUState :=
    { gpr := fun _ => 0, pc := 0xBFC00000, next_pc := 0xBFC00004,
      hi := 0, lo := 0, instruction := 0,
      cop0 := { BadA := 0, SR := 0, Cause := 0, EPC := 0, unused := 0 } }
  let c := { c with instruction := memory_read m.bus 4 c.pc }
  { m with cpu := c }

/-! ## Concrete machines used by witnesses and counterexamples -/

/-- A RAM image built by storing 32-bit words at given byte addresses into
an all-zero memory. -/
def ram_of_words (ws : List (Nat × Nat)) : Nat → Nat :=
  ws.foldl (fun mem p => store_le mem p.1 4 p.2) (fun _ => 0)

/-- All-zero COP0 bank. -/
def zero_cop0 : COP0 := { BadA := 0, SR := 0, Cause := 0, EPC := 0, unused := 0 }

/-- GPU in its reset state. -/
def base_gpu : GPUState :=
  { vram := fun _ => 0, gpuread := 0, gp0_state := GP0State.AwaitingCommand,
    params := [], func := CmdFunc.empty, remaining_words := 0,
    vram_x_pos := 0, vram_y_pos := 0, vram_x_pos_max := 0 }

/-- A bus with the given RAM image, zeroed scratchpad and BIOS, reset GPU. -/
def base_bus (ram : Nat → Nat) : SystemBus :=
  { ram := ram, scratchpad := fun _ => 0, bios := fun _ => 0, gpu := base_gpu }

/-- A CPU about to fetch from `pc`, with the given register file. -/
def base_cpu (g : Nat → Nat) (pc : Nat) : CPUState :=
  { gpr := g, pc := pc, next_pc := w32 (pc + 4), hi := 0, lo := 0,
    instruction := 0, cop0 := zero_cop0 }

/-- The all-zeros register file. -/
def zero_gpr : Nat → Nat := fun _ => 0

/-! ## Step decomposition lemmas -/

/-- With an aligned `pc`, `step` is fetch, advance, dispatch, epilogue. -/
theorem step_aligned (m : Machine) (halign : m.cpu.pc % 4 = 0) :
    step m =
      epilogue (execute { m with cpu := { m.cpu with
        instruction := memory_read m.bus 4 m.cpu.pc,
        pc := m.cpu.next_pc,
        next_pc := w32 (m.cpu.next_pc + 4) } } (memory_read m.bus 4 m.cpu.pc)) := by
  unfold step
  rw [if_neg (by simp [halign])]

/-- With a misaligned `pc`, `step` first traps AdEL (default `bad_vaddr`)
and then continues from the trapped state. -/
theorem step_misaligned (m : Machine) (halign : m.cpu.pc % 4 ≠ 0) :
    step m =
      (let mt : Machine := { m with cpu := trap m.cpu 4 0 }
       epilogue (execute { mt with cpu := { mt.cpu with
         instruction := memory_read mt.bus 4 mt.cpu.pc,
         pc := mt.cpu.next_pc,
         next_pc := w32 (mt.cpu.next_pc + 4) } } (memory_read mt.bus 4 mt.cpu.pc))) := by
  unfold step
  rw [if_pos halign]

/-- The AdEL trap with the default bad address, written as a single record
update. -/
theorem trap_adel (c : CPUState) :
    trap c 4 0 =
      { c with
        cop0 := { c.cop0 with
          EPC := w32 (c.pc + 4294967292),
          SR := c.cop0.SR / 64 * 64 + c.cop0.SR % 16 * 4,
          Cause := c.cop0.Cause / 256 % 256 * 256 + 16,
          BadA := 0 },
        pc := 0x80000080, next_pc := 0x80000084 } := rfl

/-- Dispatch of the all-zero word (`SLL $0, $0, 0`, the canonical NOP). -/
theorem execute_zero (m : Machine) :
    execute m 0 = with_gpr m 0 (w32 (m.cpu.gpr 0 * 2 ^ 0)) := rfl

/-- An SW whose IsC test is set changes nothing during dispatch. -/
theorem execute_sw_isc (m : Machine) (word : Nat)
    (hop : instr_op word = 0x2B)
    (hisc : m.cpu.cop0.SR / 65536 % 2 = 1) :
    execute m word = m := by
  unfold execute
  rw [hop]
  norm_num [sr_isc, hisc]

/-! ## Claims -/

/-- C2: for every CPU state and every instruction, after `step()` returns
`gpr[0] = 0`, including when the executed instruction names register 0 as
its destination (the epilogue `gpr[0] = 0x00000000` runs on every path). -/
theorem C2_gpr0_always_zero_after_step (m : Machine) : (step m).cpu.gpr 0 = 0 := by
  simp [step, epilogue, set_gpr]

/-- C7 (code bug): a 32-bit read at physical address 0x1F800400 — which the
spec's region map calls unmapped (scratchpad ends at 0x1F8003FF) — is
dispatched by the bus into the scratchpad array at offset 0x400, at and past
`SCRATCHPAD_SIZE`, instead of returning 0: the access reads the backing
array out of bounds. -/
theorem C7_unmapped_page_read_hits_scratchpad_array :
    read_target 0x1F800400 = ReadTarget.scratchpad 0x400 ∧
    SCRATCHPAD_SIZE ≤ 0x400 ∧
    (∀ bus : SystemBus, memory_read bus 4 0x1F800400 =
      bytes_le bus.scratchpad 0x400 4) := by
  refine ⟨by decide, by decide, fun bus => ?_⟩
  rfl

/-- The concrete machine for C1: `LW $8, 0x200($0)` at 0x100 followed by
`OR $9, $8, $0` at 0x104, with `RAM[0x200] = 0xDEADBEEF` and `gpr[8]`
initially 0xAA. -/
def C1_machine : Machine :=
  { cpu := base_cpu (set_gpr zero_gpr 8 0xAA) 0x100,
    bus := base_bus (ram_of_words
      [(0x100, 0x8C080200), (0x104, 0x01004825), (0x200, 0xDEADBEEF)]) }

/-- C1 (code bug): the source's `step()` never uses the declared load-delay
machinery; executing the LW writes the loaded value into `gpr[8]` during the
load's own step, and the immediately following instruction already observes
the new value — not the pre-load value 0xAA the claim requires. -/
theorem C1_loads_write_back_immediately :
    (step C1_machine).cpu.gpr 8 = 0xDEADBEEF ∧
    (step (step C1_machine)).cpu.gpr 9 = 0xDEADBEEF ∧
    (0xDEADBEEF : Nat) ≠ 0xAA := by
  refine ⟨by decide, by decide, by decide⟩

/-- The concrete bus for C5: reset bus whose GPU has `gpuread = 0x12345678`. -/
def C5_bus : SystemBus :=
  { base_bus (fun _ => 0) with gpu := { base_gpu with gpuread := 0x12345678 } }

/-- C5 counterexample: a 32-bit read at 0x1F801810 (I/O offset 0x810)
returns 0, not the GPU's `gpuread` register (here 0x12345678): the read
switch of the bus only handles GPUSTAT (0x814). -/
theorem C5_read_0x810_ignores_gpuread :
    memory_read C5_bus 4 0x1F801810 = 0 ∧
    C5_bus.gpu.gpuread = 0x12345678 ∧
    (0 : Nat) ≠ 0x12345678 := by
  refine ⟨by decide, by decide, by decide⟩

/-- C5 amended: within the I/O page, a 32-bit read at offset 0x810 returns
0 (the read dispatch only knows GPUSTAT; 0x810 falls into the logged
default), a read at offset 0x814 returns the stub constant 0x1FF00000, a
write at 0x810 forwards its payload to GP0, and a write at 0x814 forwards
it to GP1. -/
theorem C5_amended_gpu_io_dispatch (bus : SystemBus) (vaddr d : Nat) :
    (vaddr % 536870912 / 65536 = 0x1F80 →
     vaddr % 536870912 / 4096 % 16 = 1 →
     vaddr % 536870912 % 4096 = 0x810 →
     memory_read bus 4 vaddr = 0 ∧
     memory_write bus 4 vaddr d = { bus with gpu := GPU.gp0 bus.gpu d }) ∧
    (vaddr % 536870912 / 65536 = 0x1F80 →
     vaddr % 536870912 / 4096 % 16 = 1 →
     vaddr % 536870912 % 4096 = 0x814 →
     memory_read bus 4 vaddr = 0x1FF00000 ∧
     memory_write bus 4 vaddr d = { bus with gpu := GPU.gp1 bus.gpu d }) := by
  constructor
  · intro h1 h2 h3
    constructor
    · simp [memory_read, read_target, h1, h2, h3]
    · simp [memory_write, write_target, h1, h2, h3]
  · intro h1 h2 h3
    constructor
    · simp [memory_read, read_target, h1, h2, h3]
    · simp [memory_write, write_target, h1, h2, h3]

/-- Witness for C5's amended theorem at `vaddr = 0x1F801810` and
`vaddr = 0x1F801814`. -/
theorem C5_amended_witness :
    ((0x1F801810 : Nat) % 536870912 / 65536 = 0x1F80 ∧
     (0x1F801810 : Nat) % 536870912 / 4096 % 16 = 1 ∧
     (0x1F801810 : Nat) % 536870912 % 4096 = 0x810) ∧
    (memory_read C5_bus 4 0x1F801810 = 0 ∧
     memory_write C5_bus 4 0x1F801810 0xA0000000 =
       { C5_bus with gpu := GPU.gp0 C5_bus.gpu 0xA0000000 }) ∧
    (memory_read C5_bus 4 0x1F801814 = 0x1FF00000 ∧
     memory_write C5_bus 4 0x1F801814 7 =
       { C5_bus with gpu := GPU.gp1 C5_bus.gpu 7 }) :=
  ⟨⟨by decide, by decide, by decide⟩,
   (C5_amended_gpu_io_dispatch C5_bus 0x1F801810 0xA0000000).1
     (by decide) (by decide) (by decide),
   (C5_amended_gpu_io_dispatch C5_bus 0x1F801814 7).2
     (by decide) (by decide) (by decide)⟩


/-- The concrete machine for C6: `pc = 0xBFC00001`, all-zero memory. -/
def C6_machine : Machine :=
  { cpu := base_cpu zero_gpr 0xBFC00001, bus := base_bus (fun _ => 0) }

/-- C6 counterexample: entering `step()` with the misaligned
`pc = 0xBFC00001` leaves `BadA = 0` (the trap call uses the default
`bad_vaddr = 0`, not `pc`), and after `step()` returns, `pc = 0x80000084`
(the same step already fetched and executed the instruction at the
exception vector), not 0x80000080. -/
theorem C6_counterexample_bad_vaddr_zero :
    C6_machine.cpu.pc = 0xBFC00001 ∧
    (step C6_machine).cpu.cop0.BadA = 0 ∧
    (0 : Nat) ≠ 0xBFC00001 ∧
    (step C6_machine).cpu.pc = 0x80000084 ∧
    (0x80000084 : Nat) ≠ 0x80000080 := by
  refine ⟨by decide, by decide, by decide, by decide, by decide⟩

/-- C6 amended: entering `step()` with `pc & 3 ≠ 0` traps AdEL with the
default `bad_vaddr = 0`, so afterwards `BadA = 0` (not the misaligned pc);
`EPC` receives `pc - 4`, SR's interrupt/mode stack is pushed, and Cause's
ExcCode becomes AdEL (4).  The trap redirects to `pc = 0x80000080`,
`next_pc = 0x80000084`, and the same step then fetches and executes from
there, so when the word at the exception vector is a NOP the step returns
with `pc = 0x80000084` and `next_pc = 0x80000088`. -/
theorem C6_amended_misaligned_pc_trap (m : Machine)
    (halign : m.cpu.pc % 4 ≠ 0)
    (hnop : memory_read m.bus 4 0x80000080 = 0) :
    (step m).cpu.cop0.BadA = 0 ∧
    (step m).cpu.cop0.EPC = w32 (m.cpu.pc + 4294967292) ∧
    (step m).cpu.cop0.SR = m.cpu.cop0.SR / 64 * 64 + m.cpu.cop0.SR % 16 * 4 ∧
    (step m).cpu.cop0.Cause = m.cpu.cop0.Cause / 256 % 256 * 256 + 16 ∧
    (step m).cpu.pc = 0x80000084 ∧
    (step m).cpu.next_pc = 0x80000088 := by
  rw [step_misaligned m halign]
  dsimp only
  rw [trap_adel]
  dsimp only
  rw [hnop, execute_zero]
  refine ⟨rfl, rfl, rfl, rfl, rfl, rfl⟩

/-- Witness for C6's amended theorem at the concrete machine. -/
theorem C6_amended_witness :
    (C6_machine.cpu.pc % 4 ≠ 0 ∧ memory_read C6_machine.bus 4 0x80000080 = 0) ∧
    ((step C6_machine).cpu.cop0.BadA = 0 ∧
     (step C6_machine).cpu.cop0.EPC = w32 (C6_machine.cpu.pc + 4294967292) ∧
     (step C6_machine).cpu.cop0.SR =
       C6_machine.cpu.cop0.SR / 64 * 64 + C6_machine.cpu.cop0.SR % 16 * 4 ∧
     (step C6_machine).cpu.cop0.Cause =
       C6_machine.cpu.cop0.Cause / 256 % 256 * 256 + 16 ∧
     (step C6_machine).cpu.pc = 0x80000084 ∧
     (step C6_machine).cpu.next_pc = 0x80000088) :=
  ⟨⟨by decide, by decide⟩,
   C6_amended_misaligned_pc_trap C6_machine (by decide) (by decide)⟩

/-- C10: with SR bit 16 (IsC) set, an SW instruction performs no bus write
and raises no trap, regardless of the effective address (including a
misaligned one): the bus (RAM, scratchpad, GPU) and the COP0 bank (BadA,
Cause, EPC) are exactly as before, and the program counters take the normal
advance, with no exception redirect. -/
theorem C10_sw_suppressed_when_isc (m : Machine) (word : Nat)
    (halign : m.cpu.pc % 4 = 0)
    (hfetch : memory_read m.bus 4 m.cpu.pc = word)
    (hop : instr_op word = 0x2B)
    (hisc : m.cpu.cop0.SR / 65536 % 2 = 1) :
    (step m).bus = m.bus ∧
    (step m).cpu.cop0 = m.cpu.cop0 ∧
    (step m).cpu.pc = m.cpu.next_pc ∧
    (step m).cpu.next_pc = w32 (m.cpu.next_pc + 4) := by
  rw [step_aligned m halign, hfetch, execute_sw_isc]
  exacts [⟨rfl, rfl, rfl, rfl⟩, hop, hisc]

/-- The concrete machine for C10's witness: `SW $8, 1($0)` (a misaligned
effective address) with IsC set in SR. -/
def C10_machine : Machine :=
  { cpu := { base_cpu (set_gpr zero_gpr 8 0xCAFE) 0x100 with
             cop0 := { zero_cop0 with SR := 0x10000 } },
    bus := base_bus (ram_of_words [(0x100, 0xAC080001)]) }

/-- Witness for C10 at the concrete machine. -/
theorem C10_sw_suppressed_witness :
    (C10_machine.cpu.pc % 4 = 0 ∧
     memory_read C10_machine.bus 4 C10_machine.cpu.pc = 0xAC080001 ∧
     instr_op 0xAC080001 = 0x2B ∧
     C10_machine.cpu.cop0.SR / 65536 % 2 = 1) ∧
    ((step C10_machine).bus = C10_machine.bus ∧
     (step C10_machine).cpu.cop0 = C10_machine.cpu.cop0 ∧
     (step C10_machine).cpu.pc = C10_machine.cpu.next_pc ∧
     (step C10_machine).cpu.next_pc = w32 (C10_machine.cpu.next_pc + 4)) :=
  ⟨⟨by decide, by decide, by decide, by decide⟩,
   C10_sw_suppressed_when_isc C10_machine 0xAC080001
     (by decide) (by decide) (by decide) (by decide)⟩

/-- Round-trip of the word/signed reinterpretation for genuine words. -/
theorem toWord_toSigned (a : Nat) (h : a < 4294967296) : toWord (toSigned a) = a := by
  unfold toWord toSigned
  split
  · omega
  · omega

/-- The DIV results `(lo, hi)` as the claim states them: divisor 0 gives
`lo = 1` for a negative dividend and `lo = 0xFFFFFFFF` otherwise with
`hi = dividend`; `0x80000000 / 0xFFFFFFFF` gives `(0x80000000, 0)`;
otherwise the C-style truncated signed quotient and remainder. -/
def DIV_spec (a b : Nat) : Nat × Nat :=
  if toSigned b = 0 then
    (if toSigned a < 0 then 0x00000001 else 0xFFFFFFFF, a)
  else if a = 0x80000000 ∧ b = 0xFFFFFFFF then
    (0x80000000, 0x00000000)
  else
    (toWord (Int.tdiv (toSigned a) (toSigned b)),
     toWord (Int.tmod (toSigned a) (toSigned b)))

/-- C3: for every pair of 32-bit register values, DIV produces exactly the
claimed `(lo, hi)` (divide-by-zero and signed-overflow edge cases included)
and never traps: COP0 is untouched and the program counters take the normal
advance. -/
theorem C3_div_edge_cases (m : Machine) (word : Nat)
    (halign : m.cpu.pc % 4 = 0)
    (hfetch : memory_read m.bus 4 m.cpu.pc = word)
    (hop : instr_op word = 0x00)
    (hf : instr_funct word = 0x1A)
    (ha : m.cpu.gpr (instr_rs word) < 4294967296)
    (hb : m.cpu.gpr (instr_rt word) < 4294967296) :
    ((step m).cpu.lo, (step m).cpu.hi) =
      DIV_spec (m.cpu.gpr (instr_rs word)) (m.cpu.gpr (instr_rt word)) ∧
    (step m).cpu.cop0 = m.cpu.cop0 ∧
    (step m).cpu.pc = m.cpu.next_pc ∧
    (step m).cpu.next_pc = w32 (m.cpu.next_pc + 4) := by
  rw [step_aligned m halign, hfetch]
  unfold execute
  rw [hop, hf]
  norm_num
  rw [DIV_spec]
  split
  · refine ⟨?_, rfl, rfl, rfl⟩
    simp [epilogue, toWord_toSigned _ ha]
  · rw [toWord_toSigned _ ha, toWord_toSigned _ hb]
    split
    · next hovl =>
      refine ⟨?_, rfl, rfl, rfl⟩
      simp [epilogue, hovl.1]
    · refine ⟨?_, rfl, rfl, rfl⟩
      simp [epilogue]

/-- The concrete machine for C3's witness: `DIV $8, $9` with
`gpr[8] = 0xFFFFFFFF` (dividend -1) and `gpr[9] = 0` (division by zero). -/
def C3_machine : Machine :=
  { cpu := base_cpu (set_gpr zero_gpr 8 0xFFFFFFFF) 0,
    bus := base_bus (ram_of_words [(0, 0x0109001A)]) }

/-- Witness for C3 at the concrete machine. -/
theorem C3_div_witness :
    (C3_machine.cpu.pc % 4 = 0 ∧
     memory_read C3_machine.bus 4 C3_machine.cpu.pc = 0x0109001A ∧
     instr_op 0x0109001A = 0x00 ∧
     instr_funct 0x0109001A = 0x1A ∧
     C3_machine.cpu.gpr (instr_rs 0x0109001A) < 4294967296 ∧
     C3_machine.cpu.gpr (instr_rt 0x0109001A) < 4294967296) ∧
    (((step C3_machine).cpu.lo, (step C3_machine).cpu.hi) =
       DIV_spec (C3_machine.cpu.gpr (instr_rs 0x0109001A))
                (C3_machine.cpu.gpr (instr_rt 0x0109001A)) ∧
     (step C3_machine).cpu.cop0 = C3_machine.cpu.cop0 ∧
     (step C3_machine).cpu.pc = C3_machine.cpu.next_pc ∧
     (step C3_machine).cpu.next_pc = w32 (C3_machine.cpu.next_pc + 4)) :=
  ⟨⟨by decide, by decide, by decide, by decide, by decide, by decide⟩,
   C3_div_edge_cases C3_machine 0x0109001A
     (by decide) (by decide) (by decide) (by decide) (by decide) (by decide)⟩

/-- A conditional branch whose condition is met, as the claim quantifies
it: the fetched word is BEQ/BNE/BLEZ/BGTZ/BCOND and the respective
condition evaluates true on the post-advance state (for BCOND, after the
unconditional link when `rt` bit 4 is set, exactly as the dispatch
evaluates it). -/
def branch_taken (m : Machine) (word : Nat) : Prop :=
  let c : CPUState := { m.cpu with pc := m.cpu.next_pc,
                                   next_pc := w32 (m.cpu.next_pc + 4) }
  (instr_op word = 0x04 ∧ c.gpr (instr_rs word) = c.gpr (instr_rt word)) ∨
  (instr_op word = 0x05 ∧ c.gpr (instr_rs word) ≠ c.gpr (instr_rt word)) ∨
  (instr_op word = 0x06 ∧ toSigned (c.gpr (instr_rs word)) ≤ 0) ∨
  (instr_op word = 0x07 ∧ 0 < toSigned (c.gpr (instr_rs word))) ∨
  (instr_op word = 0x01 ∧
    bcond_taken (if 16 ≤ instr_rt word
                 then { c with gpr := set_gpr c.gpr 31 c.next_pc }
                 else c) word = true)

/-- The concrete machine for C4: a taken `BEQ $0, $0` with immediate
0x2000 at pc 0x100. -/
def C4_machine : Machine :=
  { cpu := base_cpu zero_gpr 0x100,
    bus := base_bus (ram_of_words [(0x100, 0x10002000)]) }

/-- C4 counterexample: for the taken BEQ with immediate 0x2000, the claim
predicts `next_pc = 0x104 + sign_extend_18(0x2000 << 2) = 0x104 + 0x8000 =
0x8104`, but the dispatch casts `imm << 2` to `SignedHalfword` first, so
only the low 16 bits survive (0x8000, reread as -32768) and `next_pc`
becomes 0xFFFF8104. -/
theorem C4_counterexample_offset_truncated :
    branch_taken C4_machine 0x10002000 ∧
    (step C4_machine).cpu.next_pc = 0xFFFF8104 ∧
    (0xFFFF8104 : Nat) ≠ 0x8104 := by
  refine ⟨by unfold branch_taken; decide, by decide, by decide⟩

/-- C4 amended: for every conditional branch whose condition is met,
`next_pc` becomes the post-advance `pc` plus the sign extension of the
*low 16 bits* of `imm << 2` (the cast to `SignedHalfword` truncates the
18-bit shifted value), i.e. `next_pc = pc + sign_extend_16((imm * 4) mod
2^16)` — which equals `pc + 4 * signed(imm)` only when the signed
immediate fits in 14 bits. -/
theorem C4_amended_branch_target (m : Machine) (word : Nat)
    (halign : m.cpu.pc % 4 = 0)
    (hfetch : memory_read m.bus 4 m.cpu.pc = word)
    (hbr : branch_taken m word) :
    (step m).cpu.next_pc =
      w32 (sext16 (immediate word * 4 % 65536) + m.cpu.next_pc) := by
  rw [step_aligned m halign, hfetch]
  unfold branch_taken at hbr
  rcases hbr with ⟨hop, hc⟩ | ⟨hop, hc⟩ | ⟨hop, hc⟩ | ⟨hop, hc⟩ | ⟨hop, hc⟩
  · dsimp only at hc
    unfold execute
    rw [hop]
    norm_num
    simp [branch_if, epilogue, hc]
  · dsimp only at hc
    unfold execute
    rw [hop]
    norm_num
    simp [branch_if, epilogue, hc]
  · dsimp only at hc
    unfold execute
    rw [hop]
    norm_num
    simp [branch_if, epilogue, hc]
  · dsimp only at hc
    unfold execute
    rw [hop]
    norm_num
    simp [branch_if, epilogue, hc]
  · unfold execute
    rw [hop]
    norm_num
    by_cases hlink : 16 ≤ instr_rt word
    · simp only [bcond_taken, hlink, if_true] at hc
      simp [branch_if, bcond_taken, epilogue, hlink, hc]
    · simp only [bcond_taken, hlink, if_false] at hc
      simp [branch_if, bcond_taken, epilogue, hlink, hc]

/-- Witness for C4's amended theorem at the concrete machine. -/
theorem C4_amended_witness :
    (C4_machine.cpu.pc % 4 = 0 ∧
     memory_read C4_machine.bus 4 C4_machine.cpu.pc = 0x10002000 ∧
     branch_taken C4_machine 0x10002000) ∧
    (step C4_machine).cpu.next_pc =
      w32 (sext16 (immediate 0x10002000 * 4 % 65536) + C4_machine.cpu.next_pc) :=
  ⟨⟨by decide, by decide, by unfold branch_taken; decide⟩,
   C4_amended_branch_target C4_machine 0x10002000
     (by decide) (by decide) (by unfold branch_taken; decide)⟩

/-! ## GP0 state-machine invariant -/

/-- `put_pixel` only touches VRAM and the transfer cursor. -/
theorem put_pixel_remaining (h : GPUState) (v : Nat) :
    (GPU.put_pixel h v).remaining_words = h.remaining_words := by
  unfold GPU.put_pixel; dsimp only; split <;> rfl

/-- `put_pixel` leaves the port state unchanged. -/
theorem put_pixel_state (h : GPUState) (v : Nat) :
    (GPU.put_pixel h v).gp0_state = h.gp0_state := by
  unfold GPU.put_pixel; dsimp only; split <;> rfl

/-- `get_pixel` only touches the transfer cursor. -/
theorem get_pixel_remaining (h : GPUState) :
    (GPU.get_pixel h).2.remaining_words = h.remaining_words := by
  unfold GPU.get_pixel; dsimp only; split <;> rfl

/-- `get_pixel` leaves the port state unchanged. -/
theorem get_pixel_state (h : GPUState) :
    (GPU.get_pixel h).2.gp0_state = h.gp0_state := by
  unfold GPU.get_pixel; dsimp only; split <;> rfl

/-- The state-machine invariant maintained by `GPU::gp0` from reset: the
`remaining_words` counter is a genuine 32-bit value; an idle port has no
pending words and no stale parameters; a parameter-collecting port still
expects at least one word and holds a real handler. -/
def GP0Inv (g : GPUState) : Prop :=
  g.remaining_words < 4294967296 ∧
  match g.gp0_state with
  | GP0State.AwaitingCommand => g.remaining_words = 0 ∧ g.params = []
  | GP0State.ReceivingParameters =>
      1 ≤ g.remaining_words ∧ g.func ≠ CmdFunc.empty
  | _ => True

/-- A state in one of the two data-transfer phases satisfies the invariant
as soon as its counter is bounded. -/
theorem gp0inv_of_data (g : GPUState)
    (hbound : g.remaining_words < 4294967296)
    (hst : g.gp0_state = GP0State.ReceivingData ∨
           g.gp0_state = GP0State.TransferringData) : GP0Inv g := by
  unfold GP0Inv
  rcases hst with hst | hst <;> rw [hst] <;> exact ⟨hbound, trivial⟩

/-- One GP0 packet preserves the invariant. -/
theorem gp0_preserves_inv (g : GPUState) (p : Nat) (h : GP0Inv g) :
    GP0Inv (GPU.gp0 g p) := by
  obtain ⟨vr, gr, st, pr, fn, rem, x, y, xm⟩ := g
  cases st with
  | AwaitingCommand =>
    obtain ⟨hrem, h0, hp⟩ := h
    replace h0 : rem = 0 := h0
    replace hp : pr = [] := hp
    subst h0
    subst hp
    unfold GPU.gp0
    dsimp only
    split_ifs
    · exact ⟨by norm_num, by norm_num, fun hcon => CmdFunc.noConfusion hcon⟩
    · exact ⟨by norm_num, by norm_num, fun hcon => CmdFunc.noConfusion hcon⟩
    · exact ⟨by norm_num, by norm_num, fun hcon => CmdFunc.noConfusion hcon⟩
    · exact ⟨by norm_num, rfl, rfl⟩
  | ReceivingParameters =>
    obtain ⟨hrem, h1, hfn⟩ := h
    replace hrem : rem < 4294967296 := hrem
    replace h1 : 1 ≤ rem := h1
    replace hfn : fn ≠ CmdFunc.empty := hfn
    unfold GPU.gp0
    dsimp only
    have hd : dec32 rem = rem - 1 := by unfold dec32; omega
    rw [hd]
    by_cases h0 : rem - 1 = 0
    · rw [if_pos h0]
      cases fn with
      | empty => exact absurd rfl hfn
      | rect68 =>
        unfold GPU.call_func GPU.draw_rect_helper GPU.reset_gp0 GPU.draw_rect
        exact ⟨by norm_num, rfl, rfl⟩
      | copyA0 =>
        unfold GPU.call_func GPU.funcA0
        dsimp only
        refine ⟨?_, trivial⟩
        show (((pr ++ [p]).getD 1 0 % 65536 + 1023) % 1024 + 1) *
             (((pr ++ [p]).getD 1 0 / 65536 + 511) % 512 + 1) / 2 < 4294967296
        have hle := Nat.mul_le_mul
          (show ((pr ++ [p]).getD 1 0 % 65536 + 1023) % 1024 + 1 ≤ 1024 by omega)
          (show ((pr ++ [p]).getD 1 0 / 65536 + 511) % 512 + 1 ≤ 512 by omega)
        omega
      | copyC0 =>
        unfold GPU.call_func GPU.funcC0
        dsimp only
        refine ⟨?_, trivial⟩
        show (((pr ++ [p]).getD 1 0 % 65536 + 1023) % 1024 + 1) *
             (((pr ++ [p]).getD 1 0 / 65536 + 511) % 512 + 1) / 2 < 4294967296
        have hle := Nat.mul_le_mul
          (show ((pr ++ [p]).getD 1 0 % 65536 + 1023) % 1024 + 1 ≤ 1024 by omega)
          (show ((pr ++ [p]).getD 1 0 / 65536 + 511) % 512 + 1 ≤ 512 by omega)
        omega
    · rw [if_neg h0]
      exact ⟨by show rem - 1 < 4294967296; omega,
             by show 1 ≤ rem - 1; omega, hfn⟩
  | ReceivingData =>
    obtain ⟨hrem, -⟩ := h
    replace hrem : rem < 4294967296 := hrem
    unfold GPU.gp0
    dsimp only
    cases fn with
    | empty => exact ⟨hrem, trivial⟩
    | rect68 =>
      unfold GPU.call_func GPU.draw_rect_helper GPU.reset_gp0 GPU.draw_rect
      exact ⟨by norm_num, rfl, rfl⟩
    | copyA0 =>
      unfold GPU.call_func GPU.funcA0
      dsimp only
      by_cases hr : rem = 0
      · rw [if_neg (show ¬rem ≠ 0 from fun hcon => hcon hr)]
        dsimp only
        rw [if_pos hr]
        unfold GPU.reset_gp0
        exact ⟨by norm_num, rfl, rfl⟩
      · rw [if_pos hr]
        dsimp only
        rw [put_pixel_remaining, put_pixel_remaining]
        dsimp only
        by_cases hz : dec32 rem = 0
        · rw [if_pos hz]
          unfold GPU.reset_gp0
          exact ⟨by norm_num, rfl, rfl⟩
        · rw [if_neg hz]
          apply gp0inv_of_data
          · show dec32 rem < 4294967296
            unfold dec32
            omega
          · left
            rw [put_pixel_state, put_pixel_state]
    | copyC0 =>
      exact ⟨hrem, trivial⟩
  | TransferringData =>
    obtain ⟨hrem, -⟩ := h
    replace hrem : rem < 4294967296 := hrem
    unfold GPU.gp0
    dsimp only
    cases fn with
    | empty => exact ⟨hrem, trivial⟩
    | rect68 =>
      unfold GPU.call_func GPU.draw_rect_helper GPU.reset_gp0 GPU.draw_rect
      exact ⟨by norm_num, rfl, rfl⟩
    | copyA0 =>
      exact ⟨hrem, trivial⟩
    | copyC0 =>
      unfold GPU.call_func GPU.funcC0
      dsimp only
      by_cases hr : rem = 0
      · rw [if_neg (show ¬rem ≠ 0 from fun hcon => hcon hr)]
        dsimp only
        rw [if_pos hr]
        unfold GPU.reset_gp0
        exact ⟨by norm_num, rfl, rfl⟩
      · rw [if_pos hr]
        dsimp only
        rw [get_pixel_remaining, get_pixel_remaining]
        dsimp only
        by_cases hz : dec32 rem = 0
        · rw [if_pos hz]
          unfold GPU.reset_gp0
          exact ⟨by norm_num, rfl, rfl⟩
        · rw [if_neg hz]
          apply gp0inv_of_data
          · show dec32 rem < 4294967296
            unfold dec32
            omega
          · right
            rw [get_pixel_state, get_pixel_state]

/-- The invariant is preserved by any packet sequence. -/
theorem gp0_foldl_inv (ps : List Nat) :
    ∀ g : GPUState, GP0Inv g → GP0Inv (List.foldl GPU.gp0 g ps) := by
  induction ps with
  | nil => exact fun g h => h
  | cons p ps ih => exact fun g h => ih (GPU.gp0 g p) (gp0_preserves_inv g p h)

/-- The reset state satisfies the invariant. -/
theorem gp0_reset_inv (g : GPUState) : GP0Inv (GPU.reset g) := by
  exact ⟨by show (0 : Nat) < 4294967296; norm_num, rfl, rfl⟩

/-! ## GP0 command completion -/

/-- `put_pixel` leaves the stored handler unchanged. -/
theorem put_pixel_func (h : GPUState) (v : Nat) :
    (GPU.put_pixel h v).func = h.func := by
  unfold GPU.put_pixel; dsimp only; split <;> rfl

/-- `get_pixel` leaves the stored handler unchanged. -/
theorem get_pixel_func (h : GPUState) :
    (GPU.get_pixel h).2.func = h.func := by
  unfold GPU.get_pixel; dsimp only; split <;> rfl

/-- An idle port receiving a 0xA0 command header. -/
theorem gp0_await_a0 (g : GPUState) (p : Nat)
    (hst : g.gp0_state = GP0State.AwaitingCommand)
    (hcmd : p / 16777216 = 0xA0) :
    GPU.gp0 g p = { g with remaining_words := 2, func := CmdFunc.copyA0,
                           gp0_state := GP0State.ReceivingParameters } := by
  obtain ⟨vr, gr, st, pr, fn, rem, x, y, xm⟩ := g
  replace hst : st = GP0State.AwaitingCommand := hst
  subst hst
  unfold GPU.gp0
  dsimp only
  rw [if_neg (by omega), if_pos hcmd]

/-- An idle port receiving a 0xC0 command header. -/
theorem gp0_await_c0 (g : GPUState) (p : Nat)
    (hst : g.gp0_state = GP0State.AwaitingCommand)
    (hcmd : p / 16777216 = 0xC0) :
    GPU.gp0 g p = { g with remaining_words := 2, func := CmdFunc.copyC0,
                           gp0_state := GP0State.ReceivingParameters } := by
  obtain ⟨vr, gr, st, pr, fn, rem, x, y, xm⟩ := g
  replace hst : st = GP0State.AwaitingCommand := hst
  subst hst
  unfold GPU.gp0
  dsimp only
  rw [if_neg (by omega), if_neg (by omega), if_pos hcmd]

/-- An idle port receiving a 0x68 command header. -/
theorem gp0_await_68 (g : GPUState) (p : Nat)
    (hst : g.gp0_state = GP0State.AwaitingCommand)
    (hcmd : p / 16777216 = 0x68) :
    GPU.gp0 g p = { g with params := g.params ++ [p % 16777216],
                           remaining_words := 1, func := CmdFunc.rect68,
                           gp0_state := GP0State.ReceivingParameters } := by
  obtain ⟨vr, gr, st, pr, fn, rem, x, y, xm⟩ := g
  replace hst : st = GP0State.AwaitingCommand := hst
  subst hst
  unfold GPU.gp0
  dsimp only
  rw [if_pos hcmd]

/-- A parameter word that is not yet the last one expected. -/
theorem gp0_param_step (g : GPUState) (p : Nat)
    (hst : g.gp0_state = GP0State.ReceivingParameters)
    (h2 : 2 ≤ g.remaining_words) (hlt : g.remaining_words < 4294967296) :
    GPU.gp0 g p = { g with params := g.params ++ [p],
                           remaining_words := g.remaining_words - 1 } := by
  obtain ⟨vr, gr, st, pr, fn, rem, x, y, xm⟩ := g
  replace hst : st = GP0State.ReceivingParameters := hst
  replace h2 : 2 ≤ rem := h2
  replace hlt : rem < 4294967296 := hlt
  subst hst
  unfold GPU.gp0
  dsimp only
  rw [show dec32 rem = rem - 1 from by unfold dec32; omega,
      if_neg (by omega)]

/-- The last expected parameter word of a 0xA0 command: the handler decodes
width and height and opens the data phase. -/
theorem gp0_param_last_a0 (g : GPUState) (p : Nat)
    (hst : g.gp0_state = GP0State.ReceivingParameters)
    (hfn : g.func = CmdFunc.copyA0)
    (h1 : g.remaining_words = 1) :
    GPU.gp0 g p =
      { g with params := g.params ++ [p],
               vram_x_pos := (g.params ++ [p]).getD 0 0 % 65536 % 1024,
               vram_y_pos := (g.params ++ [p]).getD 0 0 / 65536 % 512,
               vram_x_pos_max := (g.params ++ [p]).getD 0 0 % 65536 % 1024 +
                 (((g.params ++ [p]).getD 1 0 % 65536 + 1023) % 1024 + 1),
               remaining_words :=
                 ((((g.params ++ [p]).getD 1 0 % 65536 + 1023) % 1024 + 1) *
                  (((g.params ++ [p]).getD 1 0 / 65536 + 511) % 512 + 1)) / 2,
               gp0_state := GP0State.ReceivingData } := by
  obtain ⟨vr, gr, st, pr, fn, rem, x, y, xm⟩ := g
  replace hst : st = GP0State.ReceivingParameters := hst
  replace hfn : fn = CmdFunc.copyA0 := hfn
  replace h1 : rem = 1 := h1
  subst hst
  subst hfn
  subst h1
  unfold GPU.gp0
  dsimp only
  rw [show dec32 1 = 0 from by unfold dec32; norm_num, if_pos rfl]
  unfold GPU.call_func GPU.funcA0
  dsimp only

/-- The last expected parameter word of a 0xC0 command. -/
theorem gp0_param_last_c0 (g : GPUState) (p : Nat)
    (hst : g.gp0_state = GP0State.ReceivingParameters)
    (hfn : g.func = CmdFunc.copyC0)
    (h1 : g.remaining_words = 1) :
    GPU.gp0 g p =
      { g with params := g.params ++ [p],
               vram_x_pos := (g.params ++ [p]).getD 0 0 % 65536 % 1024,
               vram_y_pos := (g.params ++ [p]).getD 0 0 / 65536 % 512,
               vram_x_pos_max := (g.params ++ [p]).getD 0 0 % 65536 % 1024 +
                 (((g.params ++ [p]).getD 1 0 % 65536 + 1023) % 1024 + 1),
               remaining_words :=
                 ((((g.params ++ [p]).getD 1 0 % 65536 + 1023) % 1024 + 1) *
                  (((g.params ++ [p]).getD 1 0 / 65536 + 511) % 512 + 1)) / 2,
               gp0_state := GP0State.TransferringData } := by
  obtain ⟨vr, gr, st, pr, fn, rem, x, y, xm⟩ := g
  replace hst : st = GP0State.ReceivingParameters := hst
  replace hfn : fn = CmdFunc.copyC0 := hfn
  replace h1 : rem = 1 := h1
  subst hst
  subst hfn
  subst h1
  unfold GPU.gp0
  dsimp only
  rw [show dec32 1 = 0 from by unfold dec32; norm_num, if_pos rfl]
  unfold GPU.call_func GPU.funcC0
  dsimp only

/-- The last expected parameter word of a 0x68 command: the rectangle is
drawn and the port resets. -/
theorem gp0_param_last_68 (g : GPUState) (p : Nat)
    (hst : g.gp0_state = GP0State.ReceivingParameters)
    (hfn : g.func = CmdFunc.rect68)
    (h1 : g.remaining_words = 1) :
    (GPU.gp0 g p).gp0_state = GP0State.AwaitingCommand ∧
    (GPU.gp0 g p).remaining_words = 0 := by
  obtain ⟨vr, gr, st, pr, fn, rem, x, y, xm⟩ := g
  replace hst : st = GP0State.ReceivingParameters := hst
  replace hfn : fn = CmdFunc.rect68 := hfn
  replace h1 : rem = 1 := h1
  subst hst
  subst hfn
  subst h1
  unfold GPU.gp0
  dsimp only
  rw [show dec32 1 = 0 from by unfold dec32; norm_num, if_pos rfl]
  unfold GPU.call_func GPU.draw_rect_helper GPU.reset_gp0 GPU.draw_rect
  exact ⟨rfl, rfl⟩

/-- The data phase of a 0xA0 transfer consumes exactly its expected words
and resets to `AwaitingCommand` (at least one word expected). -/
theorem a0_data_run : ∀ (ds : List Nat) (g : GPUState),
    g.gp0_state = GP0State.ReceivingData → g.func = CmdFunc.copyA0 →
    g.remaining_words = ds.length → 1 ≤ ds.length →
    ds.length < 4294967296 →
    (List.foldl GPU.gp0 g ds).gp0_state = GP0State.AwaitingCommand ∧
    (List.foldl GPU.gp0 g ds).remaining_words = 0 := by
  intro ds
  induction ds with
  | nil => intro g _ _ _ h1 _; exact absurd h1 (by norm_num)
  | cons d rest ih =>
    intro g hst hfn hrem h1 hbig
    rw [List.foldl_cons]
    obtain ⟨vr, gr, st, pr, fn, rem, x, y, xm⟩ := g
    replace hst : st = GP0State.ReceivingData := hst
    replace hfn : fn = CmdFunc.copyA0 := hfn
    replace hrem : rem = (d :: rest).length := hrem
    subst hst
    subst hfn
    simp only [List.length_cons] at hrem h1 hbig
    unfold GPU.gp0
    dsimp only
    unfold GPU.call_func GPU.funcA0
    dsimp only
    rw [if_pos (show rem ≠ 0 by omega)]
    dsimp only
    rw [put_pixel_remaining, put_pixel_remaining]
    dsimp only
    rw [show dec32 rem = rem - 1 from by unfold dec32; omega]
    by_cases hz : rem - 1 = 0
    · rw [if_pos hz]
      have hnil : rest = [] := List.length_eq_zero.mp (by omega)
      subst hnil
      unfold GPU.reset_gp0
      exact ⟨rfl, rfl⟩
    · rw [if_neg hz]
      apply ih
      · rw [put_pixel_state, put_pixel_state]
      · rw [put_pixel_func, put_pixel_func]
      · show rem - 1 = rest.length
        omega
      · omega
      · omega

/-- The data phase of a 0xC0 transfer consumes exactly its expected words
and resets to `AwaitingCommand` (at least one word expected). -/
theorem c0_data_run : ∀ (ds : List Nat) (g : GPUState),
    g.gp0_state = GP0State.TransferringData → g.func = CmdFunc.copyC0 →
    g.remaining_words = ds.length → 1 ≤ ds.length →
    ds.length < 4294967296 →
    (List.foldl GPU.gp0 g ds).gp0_state = GP0State.AwaitingCommand ∧
    (List.foldl GPU.gp0 g ds).remaining_words = 0 := by
  intro ds
  induction ds with
  | nil => intro g _ _ _ h1 _; exact absurd h1 (by norm_num)
  | cons d rest ih =>
    intro g hst hfn hrem h1 hbig
    rw [List.foldl_cons]
    obtain ⟨vr, gr, st, pr, fn, rem, x, y, xm⟩ := g
    replace hst : st = GP0State.TransferringData := hst
    replace hfn : fn = CmdFunc.copyC0 := hfn
    replace hrem : rem = (d :: rest).length := hrem
    subst hst
    subst hfn
    simp only [List.length_cons] at hrem h1 hbig
    unfold GPU.gp0
    dsimp only
    unfold GPU.call_func GPU.funcC0
    dsimp only
    rw [if_pos (show rem ≠ 0 by omega)]
    dsimp only
    rw [get_pixel_remaining, get_pixel_remaining]
    dsimp only
    rw [show dec32 rem = rem - 1 from by unfold dec32; omega]
    by_cases hz : rem - 1 = 0
    · rw [if_pos hz]
      have hnil : rest = [] := List.length_eq_zero.mp (by omega)
      subst hnil
      unfold GPU.reset_gp0
      exact ⟨rfl, rfl⟩
    · rw [if_neg hz]
      apply ih
      · rw [get_pixel_state, get_pixel_state]
      · rw [get_pixel_func, get_pixel_func]
      · show rem - 1 = rest.length
        omega
      · omega
      · omega

/-- The three packets that open a 0xA0 transfer (header, destination,
size), from an idle port with no stale parameters. -/
theorem gp0_a0_open (g : GPUState) (p p0 p1 : Nat)
    (hst : g.gp0_state = GP0State.AwaitingCommand)
    (hpar : g.params = [])
    (hcmd : p / 16777216 = 0xA0) :
    GPU.gp0 (GPU.gp0 (GPU.gp0 g p) p0) p1 =
      { g with params := [p0, p1],
               vram_x_pos := p0 % 65536 % 1024,
               vram_y_pos := p0 / 65536 % 512,
               vram_x_pos_max := p0 % 65536 % 1024 +
                 ((p1 % 65536 + 1023) % 1024 + 1),
               remaining_words := ((p1 % 65536 + 1023) % 1024 + 1) *
                 ((p1 / 65536 + 511) % 512 + 1) / 2,
               func := CmdFunc.copyA0,
               gp0_state := GP0State.ReceivingData } := by
  obtain ⟨vr, gr, st, pr, fn, rem, x, y, xm⟩ := g
  replace hst : st = GP0State.AwaitingCommand := hst
  replace hpar : pr = [] := hpar
  subst hst
  subst hpar
  have e1 : GPU.gp0
      { vram := vr, gpuread := gr,
        gp0_state := GP0State.AwaitingCommand, params := [], func := fn,
        remaining_words := rem, vram_x_pos := x, vram_y_pos := y,
        vram_x_pos_max := xm } p =
    { vram := vr, gpuread := gr, gp0_state := GP0State.ReceivingParameters,
      params := [], func := CmdFunc.copyA0, remaining_words := 2,
      vram_x_pos := x, vram_y_pos := y, vram_x_pos_max := xm } :=
    gp0_await_a0 _ p rfl hcmd
  rw [e1]
  have e2 : GPU.gp0
      { vram := vr, gpuread := gr,
        gp0_state := GP0State.ReceivingParameters, params := [],
        func := CmdFunc.copyA0, remaining_words := 2, vram_x_pos := x,
        vram_y_pos := y, vram_x_pos_max := xm } p0 =
    { vram := vr, gpuread := gr, gp0_state := GP0State.ReceivingParameters,
      params := [p0], func := CmdFunc.copyA0, remaining_words := 1,
      vram_x_pos := x, vram_y_pos := y, vram_x_pos_max := xm } :=
    gp0_param_step _ p0 rfl (by norm_num) (by norm_num)
  rw [e2]
  have e3 : GPU.gp0
      { vram := vr, gpuread := gr,
        gp0_state := GP0State.ReceivingParameters, params := [p0],
        func := CmdFunc.copyA0, remaining_words := 1, vram_x_pos := x,
        vram_y_pos := y, vram_x_pos_max := xm } p1 =
    { vram := vr, gpuread := gr, gp0_state := GP0State.ReceivingData,
      params := [p0, p1], func := CmdFunc.copyA0,
      remaining_words := ((p1 % 65536 + 1023) % 1024 + 1) *
        ((p1 / 65536 + 511) % 512 + 1) / 2,
      vram_x_pos := p0 % 65536 % 1024, vram_y_pos := p0 / 65536 % 512,
      vram_x_pos_max := p0 % 65536 % 1024 +
        ((p1 % 65536 + 1023) % 1024 + 1) } :=
    gp0_param_last_a0 _ p1 rfl rfl rfl
  rw [e3]

/-- The three packets that open a 0xC0 transfer. -/
theorem gp0_c0_open (g : GPUState) (p p0 p1 : Nat)
    (hst : g.gp0_state = GP0State.AwaitingCommand)
    (hpar : g.params = [])
    (hcmd : p / 16777216 = 0xC0) :
    GPU.gp0 (GPU.gp0 (GPU.gp0 g p) p0) p1 =
      { g with params := [p0, p1],
               vram_x_pos := p0 % 65536 % 1024,
               vram_y_pos := p0 / 65536 % 512,
               vram_x_pos_max := p0 % 65536 % 1024 +
                 ((p1 % 65536 + 1023) % 1024 + 1),
               remaining_words := ((p1 % 65536 + 1023) % 1024 + 1) *
                 ((p1 / 65536 + 511) % 512 + 1) / 2,
               func := CmdFunc.copyC0,
               gp0_state := GP0State.TransferringData } := by
  obtain ⟨vr, gr, st, pr, fn, rem, x, y, xm⟩ := g
  replace hst : st = GP0State.AwaitingCommand := hst
  replace hpar : pr = [] := hpar
  subst hst
  subst hpar
  have e1 : GPU.gp0
      { vram := vr, gpuread := gr,
        gp0_state := GP0State.AwaitingCommand, params := [], func := fn,
        remaining_words := rem, vram_x_pos := x, vram_y_pos := y,
        vram_x_pos_max := xm } p =
    { vram := vr, gpuread := gr, gp0_state := GP0State.ReceivingParameters,
      params := [], func := CmdFunc.copyC0, remaining_words := 2,
      vram_x_pos := x, vram_y_pos := y, vram_x_pos_max := xm } :=
    gp0_await_c0 _ p rfl hcmd
  rw [e1]
  have e2 : GPU.gp0
      { vram := vr, gpuread := gr,
        gp0_state := GP0State.ReceivingParameters, params := [],
        func := CmdFunc.copyC0, remaining_words := 2, vram_x_pos := x,
        vram_y_pos := y, vram_x_pos_max := xm } p0 =
    { vram := vr, gpuread := gr, gp0_state := GP0State.ReceivingParameters,
      params := [p0], func := CmdFunc.copyC0, remaining_words := 1,
      vram_x_pos := x, vram_y_pos := y, vram_x_pos_max := xm } :=
    gp0_param_step _ p0 rfl (by norm_num) (by norm_num)
  rw [e2]
  have e3 : GPU.gp0
      { vram := vr, gpuread := gr,
        gp0_state := GP0State.ReceivingParameters, params := [p0],
        func := CmdFunc.copyC0, remaining_words := 1, vram_x_pos := x,
        vram_y_pos := y, vram_x_pos_max := xm } p1 =
    { vram := vr, gpuread := gr, gp0_state := GP0State.TransferringData,
      params := [p0, p1], func := CmdFunc.copyC0,
      remaining_words := ((p1 % 65536 + 1023) % 1024 + 1) *
        ((p1 / 65536 + 511) % 512 + 1) / 2,
      vram_x_pos := p0 % 65536 % 1024, vram_y_pos := p0 / 65536 % 512,
      vram_x_pos_max := p0 % 65536 % 1024 +
        ((p1 % 65536 + 1023) % 1024 + 1) } :=
    gp0_param_last_c0 _ p1 rfl rfl rfl
  rw [e3]

/-- An idle-state conclusion from the invariant. -/
theorem gp0inv_await (g : GPUState) (h : GP0Inv g)
    (hst : g.gp0_state = GP0State.AwaitingCommand) : g.remaining_words = 0 := by
  obtain ⟨-, h2⟩ := h
  rw [hst] at h2
  exact h2.1

/-- A parameter-state conclusion from the invariant. -/
theorem gp0inv_params (g : GPUState) (h : GP0Inv g)
    (hst : g.gp0_state = GP0State.ReceivingParameters) :
    1 ≤ g.remaining_words := by
  obtain ⟨-, h2⟩ := h
  rw [hst] at h2
  exact h2.1

/-- A data-phase packet arriving when the expected count is already zero
resets the 0xA0 command. -/
theorem gp0_data_rem0_a0 (g : GPUState) (d : Nat)
    (hst : g.gp0_state = GP0State.ReceivingData)
    (hfn : g.func = CmdFunc.copyA0)
    (h0 : g.remaining_words = 0) :
    GPU.gp0 g d = GPU.reset_gp0 g := by
  obtain ⟨vr, gr, st, pr, fn, rem, x, y, xm⟩ := g
  replace hst : st = GP0State.ReceivingData := hst
  replace hfn : fn = CmdFunc.copyA0 := hfn
  replace h0 : rem = 0 := h0
  subst hst
  subst hfn
  subst h0
  unfold GPU.gp0 GPU.call_func GPU.funcA0
  dsimp only
  rw [if_neg (show ¬(0 : Nat) ≠ 0 from fun hcon => hcon rfl), if_pos rfl]

/-- A data-phase packet arriving when the expected count is already zero
resets the 0xC0 command. -/
theorem gp0_data_rem0_c0 (g : GPUState) (d : Nat)
    (hst : g.gp0_state = GP0State.TransferringData)
    (hfn : g.func = CmdFunc.copyC0)
    (h0 : g.remaining_words = 0) :
    GPU.gp0 g d = GPU.reset_gp0 g := by
  obtain ⟨vr, gr, st, pr, fn, rem, x, y, xm⟩ := g
  replace hst : st = GP0State.TransferringData := hst
  replace hfn : fn = CmdFunc.copyC0 := hfn
  replace h0 : rem = 0 := h0
  subst hst
  subst hfn
  subst h0
  unfold GPU.gp0 GPU.call_func GPU.funcC0
  dsimp only
  rw [if_neg (show ¬(0 : Nat) ≠ 0 from fun hcon => hcon rfl), if_pos rfl]

/-- The GPU after the three packets of a 1x1 (one-pixel) CPU-to-VRAM
transfer: command header, destination, and size 1x1. -/
def C8_gpu3 : GPUState :=
  GPU.gp0 (GPU.gp0 (GPU.gp0 (GPU.reset base_gpu) 0xA0000000) 0) 0x00010001

/-- C8 counterexample: after a 0xA0 transfer with width 1 and height 1,
all parameter words are consumed and the data phase expects `(1*1)/2 = 0`
words, yet the port sits in `ReceivingData` with `remaining_words = 0`
instead of having returned to `AwaitingCommand`. -/
theorem C8_counterexample_zero_word_transfer :
    C8_gpu3.remaining_words = 0 ∧
    C8_gpu3.gp0_state = GP0State.ReceivingData ∧
    GP0State.ReceivingData ≠ GP0State.AwaitingCommand := by
  refine ⟨by decide, by decide, by decide⟩

/-- C8 amended: starting from GPU reset, after every `gp0` call the
invariant holds — `AwaitingCommand` implies `remaining_words = 0` and
`ReceivingParameters` implies `remaining_words ≥ 1` — and every command's
processing returns the port to `AwaitingCommand` once its parameter and
data words have been consumed, *provided the data phase expects at least
one word*: this covers 0x68 (one parameter) and 0xA0/0xC0 transfers with
`(w*h)/2 ≥ 1`.  When `(w*h)/2 = 0` (odd `w*h = 1`), the port instead
remains in its data state with `remaining_words = 0` and returns to
`AwaitingCommand` only after swallowing one further packet. -/
theorem C8_amended_gp0_state_machine :
    (∀ (g0 : GPUState) (ps : List Nat),
      ((List.foldl GPU.gp0 (GPU.reset g0) ps).gp0_state =
          GP0State.AwaitingCommand →
        (List.foldl GPU.gp0 (GPU.reset g0) ps).remaining_words = 0) ∧
      ((List.foldl GPU.gp0 (GPU.reset g0) ps).gp0_state =
          GP0State.ReceivingParameters →
        1 ≤ (List.foldl GPU.gp0 (GPU.reset g0) ps).remaining_words)) ∧
    (∀ (g : GPUState) (p q : Nat),
      g.gp0_state = GP0State.AwaitingCommand → p / 16777216 = 0x68 →
      (GPU.gp0 (GPU.gp0 g p) q).gp0_state = GP0State.AwaitingCommand ∧
      (GPU.gp0 (GPU.gp0 g p) q).remaining_words = 0) ∧
    (∀ (g : GPUState) (p p0 p1 : Nat) (ds : List Nat),
      g.gp0_state = GP0State.AwaitingCommand → g.params = [] →
      p / 16777216 = 0xA0 →
      ds.length = ((p1 % 65536 + 1023) % 1024 + 1) *
        ((p1 / 65536 + 511) % 512 + 1) / 2 →
      1 ≤ ds.length →
      (List.foldl GPU.gp0 g (p :: p0 :: p1 :: ds)).gp0_state =
        GP0State.AwaitingCommand ∧
      (List.foldl GPU.gp0 g (p :: p0 :: p1 :: ds)).remaining_words = 0) ∧
    (∀ (g : GPUState) (p p0 p1 : Nat) (ds : List Nat),
      g.gp0_state = GP0State.AwaitingCommand → g.params = [] →
      p / 16777216 = 0xC0 →
      ds.length = ((p1 % 65536 + 1023) % 1024 + 1) *
        ((p1 / 65536 + 511) % 512 + 1) / 2 →
      1 ≤ ds.length →
      (List.foldl GPU.gp0 g (p :: p0 :: p1 :: ds)).gp0_state =
        GP0State.AwaitingCommand ∧
      (List.foldl GPU.gp0 g (p :: p0 :: p1 :: ds)).remaining_words = 0) ∧
    (∀ (g : GPUState) (p p0 p1 d : Nat),
      g.gp0_state = GP0State.AwaitingCommand → g.params = [] →
      p / 16777216 = 0xA0 →
      ((p1 % 65536 + 1023) % 1024 + 1) *
        ((p1 / 65536 + 511) % 512 + 1) / 2 = 0 →
      (List.foldl GPU.gp0 g [p, p0, p1]).gp0_state = GP0State.ReceivingData ∧
      (List.foldl GPU.gp0 g [p, p0, p1]).remaining_words = 0 ∧
      (GPU.gp0 (List.foldl GPU.gp0 g [p, p0, p1]) d).gp0_state =
        GP0State.AwaitingCommand) := by
  refine ⟨?_, ?_, ?_, ?_, ?_⟩
  · intro g0 ps
    have hinv := gp0_foldl_inv ps (GPU.reset g0) (gp0_reset_inv g0)
    exact ⟨gp0inv_await _ hinv, gp0inv_params _ hinv⟩
  · intro g p q hst hcmd
    rw [gp0_await_68 g p hst hcmd]
    exact gp0_param_last_68 _ q rfl rfl rfl
  · intro g p p0 p1 ds hst hpar hcmd hlen h1
    have hWbound := Nat.mul_le_mul
      (show (p1 % 65536 + 1023) % 1024 + 1 ≤ 1024 by omega)
      (show (p1 / 65536 + 511) % 512 + 1 ≤ 512 by omega)
    rw [List.foldl_cons, List.foldl_cons, List.foldl_cons,
        gp0_a0_open g p p0 p1 hst hpar hcmd]
    exact a0_data_run ds _ rfl rfl hlen.symm h1 (by omega)
  · intro g p p0 p1 ds hst hpar hcmd hlen h1
    have hWbound := Nat.mul_le_mul
      (show (p1 % 65536 + 1023) % 1024 + 1 ≤ 1024 by omega)
      (show (p1 / 65536 + 511) % 512 + 1 ≤ 512 by omega)
    rw [List.foldl_cons, List.foldl_cons, List.foldl_cons,
        gp0_c0_open g p p0 p1 hst hpar hcmd]
    exact c0_data_run ds _ rfl rfl hlen.symm h1 (by omega)
  · intro g p p0 p1 d hst hpar hcmd hzero
    rw [List.foldl_cons, List.foldl_cons, List.foldl_cons,
        gp0_a0_open g p p0 p1 hst hpar hcmd, List.foldl_nil]
    refine ⟨rfl, hzero, ?_⟩
    have e4 := gp0_data_rem0_a0
      { g with params := [p0, p1],
               vram_x_pos := p0 % 65536 % 1024,
               vram_y_pos := p0 / 65536 % 512,
               vram_x_pos_max := p0 % 65536 % 1024 +
                 ((p1 % 65536 + 1023) % 1024 + 1),
               remaining_words := ((p1 % 65536 + 1023) % 1024 + 1) *
                 ((p1 / 65536 + 511) % 512 + 1) / 2,
               func := CmdFunc.copyA0,
               gp0_state := GP0State.ReceivingData } d rfl rfl hzero
    rw [e4]
    rfl

/-- Witness for C8's amended theorem: the invariant after a concrete
packet sequence, and a 2x1 CPU-to-VRAM transfer (one data word) running to
completion. -/
theorem C8_amended_witness :
    ((GPU.reset base_gpu).gp0_state = GP0State.AwaitingCommand ∧
     (GPU.reset base_gpu).params = [] ∧
     (0xA0000000 : Nat) / 16777216 = 0xA0 ∧
     ([0xBBBBAAAA] : List Nat).length =
       ((0x00010002 % 65536 + 1023) % 1024 + 1) *
       ((0x00010002 / 65536 + 511) % 512 + 1) / 2 ∧
     1 ≤ ([0xBBBBAAAA] : List Nat).length) ∧
    ((List.foldl GPU.gp0 (GPU.reset base_gpu)
        (0xA0000000 :: 0 :: 0x00010002 :: [0xBBBBAAAA])).gp0_state =
      GP0State.AwaitingCommand ∧
     (List.foldl GPU.gp0 (GPU.reset base_gpu)
        (0xA0000000 :: 0 :: 0x00010002 :: [0xBBBBAAAA])).remaining_words = 0) :=
  ⟨⟨by decide, by decide, by decide, by decide, by decide⟩,
   C8_amended_gp0_state_machine.2.2.1 (GPU.reset base_gpu)
     0xA0000000 0 0x00010002 [0xBBBBAAAA]
     (by decide) (by decide) (by decide) (by decide) (by decide)⟩

/-! ## Unaligned load reconstruction (LWR/LWL) -/

/-- Addresses up to the top of main RAM decode to the RAM region. -/
theorem read_target_ram (a : Nat) (h : a ≤ 0x1FFFFF) :
    read_target a = ReadTarget.ram a := by
  unfold read_target
  rw [Nat.mod_eq_of_lt (by omega)]
  rw [if_pos (by omega)]

/-- A 32-bit read inside main RAM is the little-endian composition of four
bytes. -/
theorem memory_read4_ram (bus : SystemBus) (a : Nat) (h : a + 3 ≤ 0x1FFFFF) :
    memory_read bus 4 a =
      bus.ram a % 256 + 256 * (bus.ram (a + 1) % 256) +
      65536 * (bus.ram (a + 2) % 256) +
      16777216 * (bus.ram (a + 3) % 256) := by
  unfold memory_read
  rw [read_target_ram a (by omega)]
  show bytes_le bus.ram a 4 = _
  simp only [bytes_le]
  ring

/-- Dispatch of an LWR instruction word. -/
theorem execute_lwr (m : Machine) (word : Nat) (hop : instr_op word = 0x26) :
    execute m word =
      with_gpr m (instr_rt word)
        (if eff_vaddr m.cpu word % 4 = 0 then
           memory_read m.bus 4 (eff_vaddr m.cpu word / 4 * 4)
         else if eff_vaddr m.cpu word % 4 = 1 then
           m.cpu.gpr (instr_rt word) / 16777216 * 16777216 +
             memory_read m.bus 4 (eff_vaddr m.cpu word / 4 * 4) / 256
         else if eff_vaddr m.cpu word % 4 = 2 then
           m.cpu.gpr (instr_rt word) / 65536 * 65536 +
             memory_read m.bus 4 (eff_vaddr m.cpu word / 4 * 4) / 65536
         else
           m.cpu.gpr (instr_rt word) / 256 * 256 +
             memory_read m.bus 4 (eff_vaddr m.cpu word / 4 * 4) / 16777216) := by
  unfold execute
  rw [hop]
  norm_num

/-- Dispatch of an LWL instruction word. -/
theorem execute_lwl (m : Machine) (word : Nat) (hop : instr_op word = 0x22) :
    execute m word =
      with_gpr m (instr_rt word)
        (if eff_vaddr m.cpu word % 4 = 0 then
           m.cpu.gpr (instr_rt word) % 16777216 +
             memory_read m.bus 4 (eff_vaddr m.cpu word / 4 * 4) % 256 * 16777216
         else if eff_vaddr m.cpu word % 4 = 1 then
           m.cpu.gpr (instr_rt word) % 65536 +
             memory_read m.bus 4 (eff_vaddr m.cpu word / 4 * 4) % 65536 * 65536
         else if eff_vaddr m.cpu word % 4 = 2 then
           m.cpu.gpr (instr_rt word) % 256 +
             memory_read m.bus 4 (eff_vaddr m.cpu word / 4 * 4) % 16777216 * 256
         else
           memory_read m.bus 4 (eff_vaddr m.cpu word / 4 * 4)) := by
  unfold execute
  rw [hop]
  norm_num

/-! ## C9: LWL/LWR pairing -/

/-- The concrete machine for C9: `LWL $8, 0x200($0)` then
`LWR $8, 0x203($0)` — the pairing order stated by the claim — with the
word 0xDEADBEEF at 0x200 and `$8` starting as 0xAAAAAAAA. -/
def C9_machine : Machine :=
  { cpu := base_cpu (set_gpr zero_gpr 8 0xAAAAAAAA) 0x100,
    bus := base_bus (ram_of_words [(0x100, 0x88080200), (0x104, 0x98080203),
                                   (0x200, 0xDEADBEEF)]) }

/-- C9 counterexample: with the word 0xDEADBEEF at the RAM address 0x200,
executing LWL at `vaddr = 0x200` followed by LWR at `vaddr + 3 = 0x203`
(the order the claim states) leaves `$8 = 0xEFAAAADE`, not the
little-endian word 0xDEADBEEF: in this little-endian implementation LWL
merges the *low* bytes of the aligned word into the *high* bytes of the
register (cpu.cpp LWL case), so the claimed pairing scrambles the word
even at an aligned address. -/
theorem C9_counterexample_lwl_then_lwr :
    (step (step C9_machine)).cpu.gpr 8 = 0xEFAAAADE ∧
    (0xEFAAAADE : Nat) ≠ 0xDEADBEEF := by
  refine ⟨by decide, by decide⟩

/-- C9 amended: the pairing that reconstructs an unaligned load in this
little-endian implementation is LWR at `vaddr` followed by LWL at
`vaddr + 3` (the reverse of the order the claim states).  For every RAM
function, every base address `v` with `v + 3` still inside the 2 MiB RAM
region, and every initial 32-bit value of the target register, running
`LWR $8, 0($1)` then `LWL $8, 3($1)` with `$1 = v` (instruction words
0x98280000 at 0x100 and 0x88280003 at 0x104) leaves `$8` equal to the
32-bit little-endian value of the four bytes at `v`, `v+1`, `v+2`,
`v+3`, whatever the alignment of `v`. -/
theorem C9_amended_lwr_then_lwl (ram : Nat → Nat) (v old : Nat)
    (hv : v + 3 ≤ 0x1FFFFF) (hold : old < 4294967296)
    (h0 : ram 0x100 = 0x00) (h1 : ram 0x101 = 0x00)
    (h2 : ram 0x102 = 0x28) (h3 : ram 0x103 = 0x98)
    (h4 : ram 0x104 = 0x03) (h5 : ram 0x105 = 0x00)
    (h6 : ram 0x106 = 0x28) (h7 : ram 0x107 = 0x88) :
    (step (step { cpu := base_cpu (set_gpr (set_gpr zero_gpr 1 v) 8 old) 0x100,
                  bus := base_bus ram })).cpu.gpr 8 =
      ram v % 256 + 256 * (ram (v + 1) % 256) + 65536 * (ram (v + 2) % 256) +
      16777216 * (ram (v + 3) % 256) := by
  have hfetch1 : memory_read (base_bus ram) 4 0x100 = 0x98280000 := by
    rw [memory_read4_ram _ _ (by norm_num)]
    show ram 0x100 % 256 + 256 * (ram (0x100 + 1) % 256) +
      65536 * (ram (0x100 + 2) % 256) + 16777216 * (ram (0x100 + 3) % 256) = _
    norm_num [h0, h1, h2, h3]
  have hfetch2 : memory_read (base_bus ram) 4 0x104 = 0x88280003 := by
    rw [memory_read4_ram _ _ (by norm_num)]
    show ram 0x104 % 256 + 256 * (ram (0x104 + 1) % 256) +
      65536 * (ram (0x104 + 2) % 256) + 16777216 * (ram (0x104 + 3) % 256) = _
    norm_num [h4, h5, h6, h7]
  rw [step_aligned { cpu := base_cpu (set_gpr (set_gpr zero_gpr 1 v) 8 old) 0x100,
                     bus := base_bus ram } (by norm_num [base_cpu])]
  dsimp only [base_cpu]
  rw [hfetch1]
  rw [execute_lwr _ 0x98280000 (by decide)]
  simp only [eff_vaddr, immediate, instr_rs, instr_rt, sext16, set_gpr, zero_gpr,
             w32, with_gpr, epilogue]
  norm_num
  rw [Nat.mod_eq_of_lt (show v < 4294967296 by omega)]
  rw [step_aligned]
  · rw [hfetch2]
    rw [execute_lwl _ 0x88280003 (by decide)]
    simp only [eff_vaddr, immediate, instr_rs, instr_rt, sext16, set_gpr, zero_gpr,
               w32, with_gpr, epilogue]
    norm_num
    rcases (show v % 4 = 0 ∨ v % 4 = 1 ∨ v % 4 = 2 ∨ v % 4 = 3 by omega)
      with hr | hr | hr | hr
    · rw [show (3 + v) % 4 = 3 by omega, hr]
      norm_num
      rw [show (3 + v) % 4294967296 / 4 * 4 = v by omega,
          memory_read4_ram _ _ (by omega)]
      simp only [base_bus]
    · rw [show (3 + v) % 4 = 0 by omega, hr]
      norm_num
      rw [show (3 + v) % 4294967296 / 4 * 4 = v + 3 by omega,
          show v / 4 * 4 = v - 1 by omega,
          memory_read4_ram _ _ (show v - 1 + 3 ≤ 0x1FFFFF by omega),
          memory_read4_ram _ _ (show v + 3 + 3 ≤ 0x1FFFFF by omega),
          show v - 1 + 1 = v by omega, show v - 1 + 2 = v + 1 by omega,
          show v - 1 + 3 = v + 2 by omega]
      simp only [base_bus]
      omega
    · rw [show (3 + v) % 4 = 1 by omega, hr]
      norm_num
      rw [show (3 + v) % 4294967296 / 4 * 4 = v + 2 by omega,
          show v / 4 * 4 = v - 2 by omega,
          memory_read4_ram _ _ (show v - 2 + 3 ≤ 0x1FFFFF by omega),
          memory_read4_ram _ _ (show v + 2 + 3 ≤ 0x1FFFFF by omega),
          show v - 2 + 2 = v by omega, show v - 2 + 3 = v + 1 by omega,
          show v + 2 + 1 = v + 3 by omega]
      simp only [base_bus]
      omega
    · rw [show (3 + v) % 4 = 2 by omega, hr]
      norm_num
      rw [show (3 + v) % 4294967296 / 4 * 4 = v + 1 by omega,
          show v / 4 * 4 = v - 3 by omega,
          memory_read4_ram _ _ (show v - 3 + 3 ≤ 0x1FFFFF by omega),
          memory_read4_ram _ _ (show v + 1 + 3 ≤ 0x1FFFFF by omega),
          show v - 3 + 3 = v by omega,
          show v + 1 + 1 = v + 2 by omega, show v + 1 + 2 = v + 3 by omega]
      simp only [base_bus]
      omega
  · norm_num

/-- Witness for C9's amended theorem at the unaligned address
`v = 0x201` inside the word 0xDEADBEEF stored at 0x200: the register
ends as 0xDEADBE (bytes 0xBE, 0xAD, 0xDE, 0x00 read little-endian). -/
theorem C9_amended_witness :
    (step (step { cpu := base_cpu (set_gpr (set_gpr zero_gpr 1 0x201) 8 0xAAAAAAAA)
                            0x100,
                  bus := base_bus (ram_of_words
                    [(0x100, 0x98280000), (0x104, 0x88280003),
                     (0x200, 0xDEADBEEF)]) })).cpu.gpr 8 = 0xDEADBE := by
  rw [C9_amended_lwr_then_lwl (ram_of_words
        [(0x100, 0x98280000), (0x104, 0x88280003), (0x200, 0xDEADBEEF)])
      0x201 0xAAAAAAAA (by norm_num) (by norm_num)
      (by decide) (by decide) (by decide) (by decide)
      (by decide) (by decide) (by decide) (by decide)]
  decide
